import Mathlib

/-!
# Verification of the browser-agent SDK core

This development shallowly embeds the core of the TypeScript SDK
(snapshot cache, verification algebra, `eventually` retry driver,
captcha gating, compact-prompt formatter) into Lean 4 and proves
the specified properties about the embedding.

Modelling conventions:
* JavaScript numbers that the code only ever uses as integers
  (element ids, importance, coordinates, milliseconds) are `Int` or `Nat`.
* `undefined` / `null` fields are `Option`.
* JavaScript exceptions are `Except String`.
* Time: the runtime is single-threaded and cooperative; the only
  suspension points that let wall time pass inside the retry loop are
  the `sleep(poll)` calls, so `Date.now() - startTime` is modelled as a
  function `time : Nat → Nat` of the number of sleeps performed so far.
* `Array.prototype.sort` (stable since ES2019) with comparator `c` is
  modelled as a stable insertion sort with `le a b := c a b ≤ 0`.
-/

/-- JSON-like values, used for the `details : Record<string, any>` payloads
of assertion outcomes. An object is an association list in insertion order. -/
inductive DVal where
  | str (s : String)
  | num (n : Int)
  | bool (b : Bool)
  | null
  | arr (l : List DVal)
  | obj (l : List (String × DVal))

/-- A `details` record: JS object, keys in insertion order. -/
abbrev Details := List (String × DVal)

/-- Set `details[key] = v` with JS object-assignment semantics: an existing
key keeps its position and is overwritten, a new key is appended. -/
def detailsSet (d : Details) (key : String) (v : DVal) : Details :=
  if d.any (fun p => p.1 == key) then
    d.map (fun p => if p.1 == key then (key, v) else p)
  else
    d ++ [(key, v)]

/-- Bounding box `{x, y, width, height}` in CSS viewport pixels. -/
structure BBox where
  x : Int
  y : Int
  width : Int
  height : Int
deriving DecidableEq

/-- Visual cues of an element; only the fields the embedded code reads. -/
structure VisualCues where
  is_primary : Bool := false
  is_clickable : Bool := true
deriving DecidableEq

/-- A semantic snapshot element (src/types.ts `Element`). Fields that the
extension may omit are `Option`. -/
structure Element where
  id : Int
  role : Option String := none
  text : Option String := none
  importance : Option Int := none
  bbox : Option BBox := none
  visual_cues : Option VisualCues := none
  in_viewport : Bool := true
  is_occluded : Bool := false
  doc_y : Option Int := none
  group_key : Option String := none
  group_index : Option Int := none
  in_dominant_group : Option Bool := none
  href : Option String := none
  disabled : Option Bool := none
  checked : Option Bool := none
  expanded : Option Bool := none
  value : Option String := none
deriving DecidableEq

/-- Captcha evidence buckets (src/types.ts `CaptchaDiagnostics.evidence`). -/
structure CaptchaEvidence where
  iframe_src_hits : List String := []
  selector_hits : List String := []
  text_hits : List String := []
  url_hits : List String := []
deriving DecidableEq

/-- Captcha diagnostics attached to a snapshot. Confidence is a rational
in [0,1] (JS float used only in comparisons). -/
structure CaptchaDiagnostics where
  detected : Bool
  confidence : Rat
  provider_hint : Option String := none
  evidence : CaptchaEvidence := {}
deriving DecidableEq

/-- Snapshot-level diagnostics bag. -/
structure Diagnostics where
  captcha : Option CaptchaDiagnostics := none
deriving DecidableEq

/-- A semantic page snapshot (src/types.ts `Snapshot`); immutable value. -/
structure Snapshot where
  status : String := "success"
  url : String := ""
  elements : List Element := []
  dominant_group_key : Option String := none
  diagnostics : Option Diagnostics := none
deriving DecidableEq

instance : Inhabited Snapshot := ⟨{}⟩

/-- Snapshot-request options (src/backends/snapshot.ts `SnapshotOptions`);
only the fields the cache logic passes through are modelled, the rest is
opaque payload to the cache. -/
structure SnapshotOptions where
  limit : Option Int := none
  screenshot : Option Bool := none
  filterClickable : Option Bool := none
  filterVisible : Option Bool := none
  filterInViewport : Option Bool := none
deriving DecidableEq

/-! ## CachedSnapshot (src/backends/snapshot.ts) -/

/-- Mutable state of a `CachedSnapshot` instance. Invariant kept by the
code: `cached = none ↔` the cache is empty (then `cachedAt = 0`). -/
structure CachedSnapshot where
  maxAgeMs : Int := 2000
  defaultOptions : Option SnapshotOptions := none
  cached : Option Snapshot := none
  cachedAt : Int := 0
  cachedUrl : Option String := none
deriving DecidableEq

namespace CachedSnapshot

/-- Method `isStale()`: true when no snapshot is cached or its age exceeds
`maxAgeMs`. `now` is the `Date.now()` reading of this call. -/
def isStale (st : CachedSnapshot) (now : Int) : Bool :=
  match st.cached with
  | none => true
  | some _ => decide (st.maxAgeMs < now - st.cachedAt)

/-- Method `get(options?, forceRefresh?)`. The backend call
`snapshot(this.backend, options || this.defaultOptions)` is modelled by the
function argument `fetch`; `nowCheck` is the `Date.now()` reading inside
`isStale`, `nowStore` the one taken after the fetch resolves. Returns the
snapshot together with the updated cache state. -/
def get (st : CachedSnapshot) (fetch : Option SnapshotOptions → Snapshot)
    (options : Option SnapshotOptions) (forceRefresh : Bool)
    (nowCheck nowStore : Int) : Snapshot × CachedSnapshot :=
  if forceRefresh || st.isStale nowCheck then
    let fresh := fetch (options.orElse fun _ => st.defaultOptions)
    (fresh, { st with cached := some fresh, cachedAt := nowStore,
                      cachedUrl := some fresh.url })
  else
    ((st.cached.getD default, st))

/-- Method `invalidate()`: zero the cache. -/
def invalidate (st : CachedSnapshot) : CachedSnapshot :=
  { st with cached := none, cachedAt := 0, cachedUrl := none }

/-- Getter `ageMs`; `none` stands for the JS value `Infinity` returned when
nothing is cached. -/
def ageMs (st : CachedSnapshot) (now : Int) : Option Int :=
  match st.cached with
  | none => none
  | some _ => some (now - st.cachedAt)

end CachedSnapshot

/-! ## JavaScript string and value helpers -/

/-- JS truthiness of an optional string: `undefined`, `null` and the empty
string are falsy. -/
def strTruthy : Option String → Bool
  | none => false
  | some s => !(s == "")

/-- List-level check that `p` is a leading segment of `l`
(JS `String.prototype.startsWith` on char lists). -/
def listLeadsWith : List Char → List Char → Bool
  | [], _ => true
  | _ :: _, [] => false
  | a :: p, b :: l => a == b && listLeadsWith p l

/-- List-level occurrence check of segment `p` inside `l`. -/
def listHasSeg (p : List Char) : List Char → Bool
  | [] => p.isEmpty
  | c :: t => listLeadsWith p (c :: t) || listHasSeg p t

/-- JS `String.prototype.includes`. -/
def jsIncludes (s sub : String) : Bool :=
  listHasSeg sub.data s.data

/-- Modelled JS builtin: ASCII lowercasing of one character
(`String.prototype.toLowerCase`; the claims only exercise ASCII). -/
def jsCharToLower (c : Char) : Char :=
  if 65 ≤ c.toNat && c.toNat ≤ 90 then Char.ofNat (c.toNat + 32) else c

/-- Modelled JS builtin: `String.prototype.toLowerCase` on ASCII strings. -/
def jsToLower (s : String) : String :=
  ⟨s.data.map jsCharToLower⟩

/-- A compiled JS `RegExp` (an engine builtin, external to the repository):
its observable behaviour at the predicate boundary is the pure `test`
function and the `String(pattern)` rendering. -/
structure JsRegExp where
  test : String → Bool
  display : String

/-! ## Verification algebra (src/verification.ts) -/

/-- One entry of `ctx.downloads`; only the fields the code reads. -/
structure DownloadEntry where
  status : Option String := none
  filename : Option String := none
  suggested_filename : Option String := none
deriving DecidableEq

/-- Encode an optional string the way it lands in a JS details object. -/
def optStrDVal : Option String → DVal
  | none => DVal.null
  | some s => DVal.str s

/-- Encode an optional count the way it lands in a JS details object. -/
def optNatDVal : Option Nat → DVal
  | none => DVal.null
  | some n => DVal.num n

/-- Encode a download entry as a details value. -/
def DownloadEntry.toDVal (d : DownloadEntry) : DVal :=
  DVal.obj [("status", optStrDVal d.status), ("filename", optStrDVal d.filename),
            ("suggested_filename", optStrDVal d.suggested_filename)]

/-- Result of evaluating an assertion predicate (`AssertOutcome`). -/
structure AssertOutcome where
  passed : Bool
  reason : String
  details : Details := []

/-- Context provided to assertion predicates (`AssertContext`). -/
structure AssertContext where
  snapshot : Option Snapshot := none
  url : Option String := none
  stepId : Option String := none
  downloads : Option (List DownloadEntry) := none

/-- A predicate takes a context and returns an outcome, purely. -/
abbrev Predicate := AssertContext → AssertOutcome

/-- Modelled from the spec: the semantic selector DSL of the query engine
(`src/query.ts`), which `src/verification.ts` imports but which is not part
of the repository snapshot. Spec: "The selector grammar supports `role=X`,
`text~'Y'` (substring, case-insensitive), `href~Z`, and conjunctions." -/
inductive QuerySelector where
  | roleIs (r : String)
  | textHas (t : String)
  | hrefHas (h : String)
  | conj (a b : QuerySelector)

/-- Modelled from the spec: matching one selector against one element. -/
def selMatches : QuerySelector → Element → Bool
  | .roleIs r, el => el.role.getD "" == r
  | .textHas t, el => jsIncludes (jsToLower (el.text.getD "")) (jsToLower t)
  | .hrefHas h, el => jsIncludes (jsToLower (el.href.getD "")) (jsToLower h)
  | .conj a b, el => selMatches a el && selMatches b el

/-- Display form of a selector (stands in for `selectorToString`). -/
def selToString : QuerySelector → String
  | .roleIs r => "role=" ++ r
  | .textHas t => "text~\x27" ++ t ++ "\x27"
  | .hrefHas h => "href~" ++ h
  | .conj a b => selToString a ++ " " ++ selToString b

/-- Stable insertion of `a` after every element `b` of the accumulator with
`le b a`; building block of the stable-sort model. -/
def insertLe (le : α → α → Bool) (a : α) : List α → List α
  | [] => [a]
  | b :: l => if le b a then b :: insertLe le a l else a :: b :: l

/-- Model of `Array.prototype.sort` with a consistent comparator `c`
(stable since ES2019), as a stable insertion sort with
`le a b := c a b ≤ 0`. -/
def jsSortStable (le : α → α → Bool) (l : List α) : List α :=
  l.foldl (fun acc a => insertLe le a acc) []

/-- Modelled from the spec: `query(snapshot, selector)` filters the
snapshot elements by the selector and sorts matches by `doc_y` ascending
("Matching is pure and order-deterministic (sort results by doc_y asc for
stable first-match semantics)", with `doc_y ?? bbox.y` as in the sibling
engine src/asserts/query.ts). -/
def query (snap : Snapshot) (sel : QuerySelector) : List Element :=
  jsSortStable
    (fun a b =>
      decide ((a.doc_y.getD ((a.bbox.map (·.y)).getD 0)) ≤
              (b.doc_y.getD ((b.bbox.map (·.y)).getD 0))))
    (snap.elements.filter (selMatches sel))

/-- Predicate `downloadCompleted(filenameSubstring?)`. -/
def downloadCompleted (filenameSubstring : Option String := none) : Predicate :=
  fun ctx =>
    let downloads := ctx.downloads.getD []
    match downloads.find? (fun d =>
        (d.status.getD "") == "completed" &&
        (!(strTruthy filenameSubstring) ||
          jsIncludes ((d.filename.orElse fun _ => d.suggested_filename).getD "")
            (filenameSubstring.getD ""))) with
    | some d => { passed := true, reason := "", details := [("download", d.toDVal)] }
    | none =>
      { passed := false,
        reason :=
          if strTruthy filenameSubstring then
            "no completed download matched: " ++ filenameSubstring.getD ""
          else
            "no completed downloads",
        details := [("filenameSubstring", optStrDVal filenameSubstring),
                    ("downloads", DVal.arr (downloads.map (·.toDVal)))] }

/-- Predicate `urlMatches(pattern)`. -/
def urlMatches (rx : JsRegExp) : Predicate := fun ctx =>
  let url := ctx.url.getD ""
  let ok := rx.test url
  { passed := ok,
    reason := if ok then "" else "url did not match pattern: " ++ rx.display,
    details := [("pattern", DVal.str rx.display),
                ("url", DVal.str ⟨url.data.take 200⟩)] }

/-- Predicate `urlContains(substring)`. -/
def urlContains (substring : String) : Predicate := fun ctx =>
  let url := ctx.url.getD ""
  let ok := jsIncludes url substring
  { passed := ok,
    reason := if ok then "" else "url does not contain: " ++ substring,
    details := [("substring", DVal.str substring),
                ("url", DVal.str ⟨url.data.take 200⟩)] }

/-- Predicate `exists(selector)` (named `existsPred`, `exists` being a Lean
keyword). -/
def existsPred (selector : QuerySelector) : Predicate := fun ctx =>
  let selectorStr := selToString selector
  match ctx.snapshot with
  | none =>
    { passed := false, reason := "no snapshot available",
      details := [("selector", DVal.str selectorStr),
                  ("reason_code", DVal.str "no_snapshot")] }
  | some snap =>
    let found := query snap selector
    let ok : Bool := decide (0 < found.length)
    { passed := ok,
      reason := if ok then "" else "no elements matched selector: " ++ selectorStr,
      details := [("selector", DVal.str selectorStr),
                  ("matched", DVal.num found.length),
                  ("reason_code", DVal.str (if ok then "ok" else "no_match"))] }

/-- Predicate `notExists(selector)`. -/
def notExistsPred (selector : QuerySelector) : Predicate := fun ctx =>
  let selectorStr := selToString selector
  match ctx.snapshot with
  | none =>
    { passed := false, reason := "no snapshot available",
      details := [("selector", DVal.str selectorStr),
                  ("reason_code", DVal.str "no_snapshot")] }
  | some snap =>
    let found := query snap selector
    let ok : Bool := decide (found.length = 0)
    { passed := ok,
      reason := if ok then "" else
        "found " ++ toString found.length ++ " elements matching: " ++ selectorStr,
      details := [("selector", DVal.str selectorStr),
                  ("matched", DVal.num found.length),
                  ("reason_code", DVal.str (if ok then "ok" else "unexpected_match"))] }

/-- Predicate `elementCount(selector, {minCount, maxCount})`. -/
def elementCount (selector : QuerySelector) (minCount : Nat := 0)
    (maxCount : Option Nat := none) : Predicate := fun ctx =>
  let selectorStr := selToString selector
  match ctx.snapshot with
  | none =>
    { passed := false, reason := "no snapshot available",
      details := [("selector", DVal.str selectorStr), ("minCount", DVal.num minCount),
                  ("maxCount", optNatDVal maxCount)] }
  | some snap =>
    let count := (query snap selector).length
    let ok : Bool := decide (minCount ≤ count) &&
      (match maxCount with | none => true | some m => decide (count ≤ m))
    let reason :=
      if ok then "" else
        match maxCount with
        | some m => "expected " ++ toString minCount ++ "-" ++ toString m ++
            " elements, found " ++ toString count
        | none => "expected at least " ++ toString minCount ++
            " elements, found " ++ toString count
    { passed := ok, reason := reason,
      details := [("selector", DVal.str selectorStr), ("matched", DVal.num count),
                  ("minCount", DVal.num minCount), ("maxCount", optNatDVal maxCount)] }

/-- Predicate `isEnabled(selector)`. -/
def isEnabled (selector : QuerySelector) : Predicate := fun ctx =>
  let selectorStr := selToString selector
  match ctx.snapshot with
  | none =>
    { passed := false, reason := "no snapshot available",
      details := [("selector", DVal.str selectorStr)] }
  | some snap =>
    let found := query snap selector
    if found.length = 0 then
      { passed := false,
        reason := "no elements matched selector: " ++ selectorStr,
        details := [("selector", DVal.str selectorStr), ("matched", DVal.num 0),
                    ("reason_code", DVal.str "no_match")] }
    else
      let ok := found.any fun m => !(m.disabled == some true)
      { passed := ok,
        reason := if ok then "" else "all matched elements are disabled: " ++ selectorStr,
        details := [("selector", DVal.str selectorStr),
                    ("matched", DVal.num found.length),
                    ("reason_code", DVal.str (if ok then "ok" else "state_mismatch"))] }

/-- Predicate `isDisabled(selector)`. -/
def isDisabled (selector : QuerySelector) : Predicate := fun ctx =>
  let selectorStr := selToString selector
  match ctx.snapshot with
  | none =>
    { passed := false, reason := "no snapshot available",
      details := [("selector", DVal.str selectorStr)] }
  | some snap =>
    let found := query snap selector
    let ok := found.any fun m => m.disabled == some true
    { passed := ok,
      reason := if ok then "" else "no matched elements are disabled: " ++ selectorStr,
      details := [("selector", DVal.str selectorStr),
                  ("matched", DVal.num found.length),
                  ("reason_code", DVal.str (if ok then "ok" else "state_mismatch"))] }

/-- Predicate `isChecked(selector)`. -/
def isChecked (selector : QuerySelector) : Predicate := fun ctx =>
  let selectorStr := selToString selector
  match ctx.snapshot with
  | none =>
    { passed := false, reason := "no snapshot available",
      details := [("selector", DVal.str selectorStr)] }
  | some snap =>
    let found := query snap selector
    let ok := found.any fun m => m.checked == some true
    { passed := ok,
      reason := if ok then "" else "no matched elements are checked: " ++ selectorStr,
      details := [("selector", DVal.str selectorStr),
                  ("matched", DVal.num found.length),
                  ("reason_code", DVal.str (if ok then "ok" else "state_mismatch"))] }

/-- Predicate `isUnchecked(selector)`. -/
def isUnchecked (selector : QuerySelector) : Predicate := fun ctx =>
  let selectorStr := selToString selector
  match ctx.snapshot with
  | none =>
    { passed := false, reason := "no snapshot available",
      details := [("selector", DVal.str selectorStr)] }
  | some snap =>
    let found := query snap selector
    let ok := found.any fun m => !(m.checked == some true)
    { passed := ok,
      reason := if ok then "" else "all matched elements are checked: " ++ selectorStr,
      details := [("selector", DVal.str selectorStr),
                  ("matched", DVal.num found.length),
                  ("reason_code", DVal.str (if ok then "ok" else "state_mismatch"))] }

/-- Predicate `valueEquals(selector, expected)`. -/
def valueEquals (selector : QuerySelector) (expected : String) : Predicate := fun ctx =>
  let selectorStr := selToString selector
  match ctx.snapshot with
  | none =>
    { passed := false, reason := "no snapshot available",
      details := [("selector", DVal.str selectorStr)] }
  | some snap =>
    let found := query snap selector
    let ok := found.any fun m => m.value.getD "" == expected
    { passed := ok,
      reason := if ok then "" else
        "no matched elements had value == \x27" ++ expected ++ "\x27",
      details := [("selector", DVal.str selectorStr), ("expected", DVal.str expected),
                  ("matched", DVal.num found.length),
                  ("reason_code", DVal.str (if ok then "ok" else "state_mismatch"))] }

/-- Predicate `valueContains(selector, substring)`. -/
def valueContains (selector : QuerySelector) (substring : String) : Predicate := fun ctx =>
  let selectorStr := selToString selector
  match ctx.snapshot with
  | none =>
    { passed := false, reason := "no snapshot available",
      details := [("selector", DVal.str selectorStr)] }
  | some snap =>
    let found := query snap selector
    let ok := found.any fun m =>
      jsIncludes (jsToLower (m.value.getD "")) (jsToLower substring)
    { passed := ok,
      reason := if ok then "" else
        "no matched elements had value containing \x27" ++ substring ++ "\x27",
      details := [("selector", DVal.str selectorStr), ("substring", DVal.str substring),
                  ("matched", DVal.num found.length),
                  ("reason_code", DVal.str (if ok then "ok" else "state_mismatch"))] }

/-- Predicate `isExpanded(selector)`. -/
def isExpanded (selector : QuerySelector) : Predicate := fun ctx =>
  let selectorStr := selToString selector
  match ctx.snapshot with
  | none =>
    { passed := false, reason := "no snapshot available",
      details := [("selector", DVal.str selectorStr)] }
  | some snap =>
    let found := query snap selector
    let ok := found.any fun m => m.expanded == some true
    { passed := ok,
      reason := if ok then "" else "no matched elements are expanded: " ++ selectorStr,
      details := [("selector", DVal.str selectorStr),
                  ("matched", DVal.num found.length),
                  ("reason_code", DVal.str (if ok then "ok" else "state_mismatch"))] }

/-- Predicate `isCollapsed(selector)`. -/
def isCollapsed (selector : QuerySelector) : Predicate := fun ctx =>
  let selectorStr := selToString selector
  match ctx.snapshot with
  | none =>
    { passed := false, reason := "no snapshot available",
      details := [("selector", DVal.str selectorStr)] }
  | some snap =>
    let found := query snap selector
    let ok := found.any fun m => !(m.expanded == some true)
    { passed := ok,
      reason := if ok then "" else "all matched elements are expanded: " ++ selectorStr,
      details := [("selector", DVal.str selectorStr),
                  ("matched", DVal.num found.length),
                  ("reason_code", DVal.str (if ok then "ok" else "state_mismatch"))] }

/-- Combinator `allOf(...predicates)`: AND; collects every sub-outcome and
joins the failing reasons. -/
def allOf (predicates : List Predicate) : Predicate := fun ctx =>
  let outcomes := predicates.map fun p => p ctx
  let failedReasons := (outcomes.filter fun o => !o.passed).map (·.reason)
  let allDetails := outcomes.map fun o => DVal.obj o.details
  { passed := failedReasons.isEmpty,
    reason := String.intercalate "; " failedReasons,
    details := [("subPredicates", DVal.arr allDetails),
                ("failedCount", DVal.num failedReasons.length)] }

/-- Loop body of `anyOf`: walks the sub-predicates in order, returning at
the first passing one; `total` is the total number of sub-predicates,
`i` the index of the head, `ds`/`rs` the details and reasons collected
so far, in order. -/
def anyOfAux (total : Nat) (ctx : AssertContext) :
    List Predicate → Nat → List DVal → List String → AssertOutcome
  | [], _, ds, rs =>
    { passed := false,
      reason := "none of " ++ toString total ++ " predicates passed: " ++
        String.intercalate "; " rs,
      details := [("subPredicates", DVal.arr ds)] }
  | p :: rest, i, ds, rs =>
    let o := p ctx
    if o.passed then
      { passed := true, reason := "",
        details := [("subPredicates", DVal.arr (ds ++ [DVal.obj o.details])),
                    ("matchedAtIndex", DVal.num i)] }
    else
      anyOfAux total ctx rest (i + 1) (ds ++ [DVal.obj o.details]) (rs ++ [o.reason])

/-- Combinator `anyOf(...predicates)`: OR; returns at the first passing
sub-predicate, else lists all failure reasons. -/
def anyOf (predicates : List Predicate) : Predicate := fun ctx =>
  anyOfAux predicates.length ctx predicates 0 [] []

/-- Combinator `custom(fn, label)`: wraps an arbitrary check; a thrown
exception (modelled as `Except.error`) becomes a failing outcome. -/
def custom (checkFn : AssertContext → Except String Bool)
    (label : String := "custom") : Predicate := fun ctx =>
  match checkFn ctx with
  | .ok ok =>
    { passed := ok,
      reason := if ok then "" else "custom check \x27" ++ label ++ "\x27 returned false",
      details := [("label", DVal.str label)] }
  | .error e =>
    { passed := false,
      reason := "custom check \x27" ++ label ++ "\x27 raised exception: " ++ e,
      details := [("label", DVal.str label), ("error", DVal.str e)] }

/-- Syntax of predicates built from the primitives and combinators of
src/verification.ts; used to state purity over the whole algebra at once. -/
inductive PredExpr where
  | urlMatchesE (rx : JsRegExp)
  | urlContainsE (s : String)
  | existsE (sel : QuerySelector)
  | notExistsE (sel : QuerySelector)
  | elementCountE (sel : QuerySelector) (minCount : Nat) (maxCount : Option Nat)
  | isEnabledE (sel : QuerySelector)
  | isDisabledE (sel : QuerySelector)
  | isCheckedE (sel : QuerySelector)
  | isUncheckedE (sel : QuerySelector)
  | isExpandedE (sel : QuerySelector)
  | isCollapsedE (sel : QuerySelector)
  | valueEqualsE (sel : QuerySelector) (v : String)
  | valueContainsE (sel : QuerySelector) (s : String)
  | downloadCompletedE (f : Option String)
  | customE (fn : AssertContext → Except String Bool) (label : String)
  | allOfE (ps : List PredExpr)
  | anyOfE (ps : List PredExpr)

/-- Evaluation of a predicate expression to the corresponding predicate of
src/verification.ts. -/
def evalPred : PredExpr → Predicate
  | .urlMatchesE rx => urlMatches rx
  | .urlContainsE s => urlContains s
  | .existsE sel => existsPred sel
  | .notExistsE sel => notExistsPred sel
  | .elementCountE sel mn mx => elementCount sel mn mx
  | .isEnabledE sel => isEnabled sel
  | .isDisabledE sel => isDisabled sel
  | .isCheckedE sel => isChecked sel
  | .isUncheckedE sel => isUnchecked sel
  | .isExpandedE sel => isExpanded sel
  | .isCollapsedE sel => isCollapsed sel
  | .valueEqualsE sel v => valueEquals sel v
  | .valueContainsE sel s => valueContains sel s
  | .downloadCompletedE f => downloadCompleted f
  | .customE fn label => custom fn label
  | .allOfE ps => allOf (ps.attach.map fun x => evalPred x.1)
  | .anyOfE ps => anyOf (ps.attach.map fun x => evalPred x.1)
termination_by e => sizeOf e
decreasing_by
  all_goals
    simp_wf
    rcases x with ⟨p, hp⟩
    have h := List.sizeOf_lt_of_mem hp
    simp only [PredExpr.allOfE.sizeOf_spec, PredExpr.anyOfE.sizeOf_spec]
    omega
/-! ## Eventually driver (src/asserts/expect.ts `EventuallyWrapper`) -/

/-- Retry configuration (`EventuallyConfig` with the constructor defaults
applied). Times are in milliseconds. -/
structure EventuallyConfig where
  timeout : Nat := 10000
  poll : Nat := 200
  maxRetries : Nat := 3

/-- Pure environment of one `EventuallyWrapper.evaluate` run: the wrapped
predicate, the snapshot-refresh callback (`snapshotFn`, indexed by how many
refresh calls happened before; `Except.error` models a thrown exception),
and the clock: `time k` is the value of `Date.now() - startTime` after `k`
sleeps, the only suspension points at which wall time passes in the
single-threaded cooperative model. -/
structure EventuallyEnv where
  pred : Predicate
  snapshotFn : Nat → Except String (Option Snapshot)
  time : Nat → Nat

/-- Result of a run, instrumented with the final values of the `attempts`
counter and of the number of sleeps performed (the TypeScript method
returns only the outcome). -/
structure EventuallyRun where
  outcome : AssertOutcome
  attempts : Nat
  sleeps : Nat

/-- Failing outcome recorded when the snapshot-refresh callback throws. -/
def snapFailOutcome (attempts : Nat) (e : String) : AssertOutcome :=
  { passed := false,
    reason := "failed to take snapshot: " ++ e,
    details := [("attempts", DVal.num attempts), ("error", DVal.str e)] }

/-- Annotate a passing outcome with `details.attempts = k`. -/
def withAttempts (o : AssertOutcome) (k : Nat) : AssertOutcome :=
  { o with details := detailsSet o.details "attempts" (DVal.num k) }

/-- Context rebuild after a successful snapshot refresh:
`{ snapshot: freshSnapshot, url: freshSnapshot?.url ?? ctx.url, stepId:
ctx.stepId }` (the `downloads` field is not carried over). -/
def refreshCtx (ctx : AssertContext) (fresh : Option Snapshot) : AssertContext :=
  { snapshot := fresh,
    url := match fresh with | some s => some s.url | none => ctx.url,
    stepId := ctx.stepId }

/-- The `while (true)` loop of `EventuallyWrapper.evaluate`, one-to-one with
the source: timeout check (higher precedence), max-retries check, refresh
when `attempts > 0` (a throw is converted to a failing outcome, counted as
an attempt and slept over), predicate evaluation, pass annotation, and the
wait-or-cut-short logic before the next retry. -/
def evaluateLoop (cfg : EventuallyConfig) (env : EventuallyEnv)
    (ctx : AssertContext) (lastOutcome : Option AssertOutcome)
    (attempts snapCalls sleeps : Nat) : EventuallyRun :=
  if _ht : cfg.timeout ≤ env.time sleeps then
    match lastOutcome with
    | some lo =>
      ⟨{ lo with
          reason := "timeout after " ++ toString (env.time sleeps) ++ "ms: " ++
            lo.reason },
       attempts, sleeps⟩
    | none =>
      ⟨{ passed := false,
         reason := "timeout after " ++ toString (env.time sleeps) ++ "ms",
         details := [("attempts", DVal.num attempts)] }, attempts, sleeps⟩
  else if _hr : cfg.maxRetries ≤ attempts then
    match lastOutcome with
    | some lo =>
      ⟨{ lo with
          reason := "max retries (" ++ toString cfg.maxRetries ++ ") exceeded: " ++
            lo.reason },
       attempts, sleeps⟩
    | none =>
      ⟨{ passed := false,
         reason := "max retries (" ++ toString cfg.maxRetries ++ ") exceeded",
         details := [("attempts", DVal.num attempts)] }, attempts, sleeps⟩
  else if _h0 : attempts = 0 then
    if (env.pred ctx).passed then
      ⟨withAttempts (env.pred ctx) (attempts + 1), attempts, sleeps⟩
    else if attempts + 1 < cfg.maxRetries then
      if env.time sleeps + cfg.poll < cfg.timeout then
        evaluateLoop cfg env ctx (some (env.pred ctx)) (attempts + 1) snapCalls
          (sleeps + 1)
      else
        ⟨{ env.pred ctx with
            reason := "timeout after " ++ toString (env.time sleeps) ++ "ms: " ++
              (env.pred ctx).reason },
         attempts + 1, sleeps⟩
    else
      evaluateLoop cfg env ctx (some (env.pred ctx)) (attempts + 1) snapCalls sleeps
  else
    match env.snapshotFn snapCalls with
    | .error e =>
      evaluateLoop cfg env ctx (some (snapFailOutcome attempts e)) (attempts + 1)
        (snapCalls + 1) (sleeps + 1)
    | .ok fresh =>
      if (env.pred (refreshCtx ctx fresh)).passed then
        ⟨withAttempts (env.pred (refreshCtx ctx fresh)) (attempts + 1), attempts, sleeps⟩
      else if attempts + 1 < cfg.maxRetries then
        if env.time sleeps + cfg.poll < cfg.timeout then
          evaluateLoop cfg env (refreshCtx ctx fresh)
            (some (env.pred (refreshCtx ctx fresh))) (attempts + 1) (snapCalls + 1)
            (sleeps + 1)
        else
          ⟨{ env.pred (refreshCtx ctx fresh) with
              reason := "timeout after " ++ toString (env.time sleeps) ++ "ms: " ++
                (env.pred (refreshCtx ctx fresh)).reason },
           attempts + 1, sleeps⟩
      else
        evaluateLoop cfg env (refreshCtx ctx fresh)
          (some (env.pred (refreshCtx ctx fresh))) (attempts + 1) (snapCalls + 1) sleeps
termination_by cfg.maxRetries - attempts
decreasing_by all_goals omega

/-- Public entry `EventuallyWrapper.evaluate(ctx, snapshotFn)`: run the
retry loop from a zeroed state. -/
def EventuallyWrapper.evaluate (cfg : EventuallyConfig) (env : EventuallyEnv)
    (ctx : AssertContext) : EventuallyRun :=
  evaluateLoop cfg env ctx none 0 0 0

/-! ## Captcha gating (AgentRuntime) -/

/-- Modelled from the spec: `AgentRuntime.isCaptchaDetected` lives in
src/agent-runtime.ts, which is not part of the repository snapshot (only
its test suite is). Spec: "Suppress passive evidence (iframe_src hits only)
regardless of confidence. For interactive evidence (text_hits /
selector_hits above `minConfidence`), apply the configured policy." Gating
therefore triggers exactly on interactive evidence (a text or selector hit)
at or above the configured minimum confidence; iframe-src and url evidence
alone never gates. -/
def isCaptchaDetected (minConfidence : Rat) (snap : Snapshot) : Bool :=
  match snap.diagnostics with
  | none => false
  | some d =>
    match d.captcha with
    | none => false
    | some c =>
      (!c.evidence.text_hits.isEmpty || !c.evidence.selector_hits.isEmpty) &&
        decide (minConfidence ≤ c.confidence)

/-! ## Compact prompt formatter (src/backends/sentience-context.ts) -/

/-- Element-selection cardinalities (`TopElementSelector` with defaults). -/
structure TopElementSelector where
  byImportance : Nat := 60
  fromDominantGroup : Nat := 15
  byPosition : Nat := 10

/-- The fixed interactive-role set (`INTERACTIVE_ROLES`). -/
def interactiveRoles : List String :=
  ["button", "link", "textbox", "searchbox", "combobox", "checkbox", "radio",
   "slider", "tab", "menuitem", "option", "switch", "cell", "a", "input",
   "select", "textarea"]

/-- Importance with the JS `|| 0` default. -/
def imp (el : Element) : Int :=
  el.importance.getD 0

/-- Comparison of optional integers where `none` stands for `Infinity`
(and two `Infinity` values compare equal, as the NaN comparator result is
treated as 0 by `Array.prototype.sort`). -/
def cmpInf (a b : Option Int) : Ordering :=
  match a, b with
  | none, none => .eq
  | none, some _ => .gt
  | some _, none => .lt
  | some x, some y => compare x y

/-- The interactive elements of a snapshot, sorted in place by importance
descending (first statement of `_formatSnapshotForLLM`); every later
selection works on this list. -/
def interSorted (snap : Snapshot) : List Element :=
  jsSortStable (fun a b => decide (imp b ≤ imp a))
    (snap.elements.filter fun el => interactiveRoles.contains (jsToLower (el.role.getD "")))

/-- The dominant-group population: elements with `in_dominant_group` set,
falling back to an exact `group_key` match against `dominant_group_key`
when no element carries the flag (and the key is truthy). -/
def dgForRank (snap : Snapshot) : List Element :=
  let inter := interSorted snap
  let dg1 := inter.filter fun el => el.in_dominant_group == some true
  if dg1.isEmpty && strTruthy snap.dominant_group_key then
    inter.filter fun el => el.group_key == snap.dominant_group_key
  else dg1

/-- Dominant-group elements sorted by `group_index ?? 999` for ordinal
selection. -/
def dgByIndex (snap : Snapshot) : List Element :=
  jsSortStable
    (fun a b => decide (a.group_index.getD 999 ≤ b.group_index.getD 999))
    (dgForRank snap)

/-- Position key of `getYPosition`: `doc_y`, else `bbox.y`, else `Infinity`. -/
def getY (el : Element) : Option Int :=
  match el.doc_y with
  | some d => some d
  | none => el.bbox.map (·.y)

/-- Interactive elements sorted by page position (lowest `doc_y` first,
importance-descending tiebreak). -/
def byPositionSorted (snap : Snapshot) : List Element :=
  jsSortStable
    (fun a b => ((cmpInf (getY a) (getY b)).then (compare (imp b) (imp a))).isLE)
    (interSorted snap)

/-- De-duplicating push of candidate elements: skip ids already selected
(`selectedIds` tracking of the source). -/
def pickNew : List Int × List Element → List Element → List Int × List Element
  | acc, [] => acc
  | (ids, sel), el :: rest =>
    if ids.contains el.id then pickNew (ids, sel) rest
    else pickNew (ids ++ [el.id], sel ++ [el]) rest

/-- The 3-way merged selection: top-N by importance, then top-N from the
dominant group by `group_index`, then top-N by position, de-duplicated in
this order. -/
def selectedElements (cfg : TopElementSelector) (snap : Snapshot) : List Element :=
  let s1 := pickNew ([], []) ((interSorted snap).take cfg.byImportance)
  let s2 := pickNew s1 ((dgByIndex snap).take cfg.fromDominantGroup)
  let s3 := pickNew s2 ((byPositionSorted snap).take cfg.byPosition)
  s3.2

/-- The rank comparator of the dominant group:
`(doc_y, bbox.y, bbox.x, -importance)` with missing keys as `Infinity`. -/
def rankLe (a b : Element) : Bool :=
  ((cmpInf a.doc_y b.doc_y).then
    ((cmpInf (a.bbox.map (·.y)) (b.bbox.map (·.y))).then
      ((cmpInf (a.bbox.map (·.x)) (b.bbox.map (·.x))).then
        (compare (imp b) (imp a))))).isLE

/-- The full dominant-group population in rank order. -/
def dgRankSorted (snap : Snapshot) : List Element :=
  jsSortStable rankLe (dgForRank snap)

/-- JS `Map.set` on an association list: overwrite in place or append. -/
def mapSet (m : List (Int × Nat)) (k : Int) (v : Nat) : List (Int × Nat) :=
  if m.any (fun p => p.1 == k) then
    m.map fun p => if p.1 == k then (k, v) else p
  else
    m ++ [(k, v)]

/-- JS `Map.get` on an association list. -/
def mapGet (m : List (Int × Nat)) (k : Int) : Option Nat :=
  (m.find? fun p => p.1 == k).map (·.2)

/-- The `forEach((el, rank) => map.set(el.id, rank))` loop. -/
def rankMapFrom (i : Nat) : List Element → List (Int × Nat) → List (Int × Nat)
  | [], m => m
  | el :: rest, m => rankMapFrom (i + 1) rest (mapSet m el.id i)

/-- The `rankInGroupMap`: id of each ranked dominant-group element mapped
to its rank in the full population. -/
def rankInGroupMap (snap : Snapshot) : List (Int × Nat) :=
  rankMapFrom 0 (dgRankSorted snap) []

/-- Per-element dominant-group flag used for the `ord` and `DG` columns:
`in_dominant_group` when present, else the `group_key` fallback guarded by
a truthy `dominant_group_key`. -/
def inDgFlag (snap : Snapshot) (el : Element) : Bool :=
  match el.in_dominant_group with
  | some b => b
  | none => strTruthy snap.dominant_group_key &&
      (el.group_key == snap.dominant_group_key)

/-- JS whitespace class `\s`, restricted to the ASCII whitespace characters
(space, tab, newline, carriage return, vertical tab, form feed); the
Unicode extras of the builtin class do not affect the claims. -/
def isJsWs (c : Char) : Bool :=
  c == ' ' || c == Char.ofNat 9 || c == Char.ofNat 10 || c == Char.ofNat 13 ||
    c == Char.ofNat 11 || c == Char.ofNat 12

/-- Replace every maximal whitespace run by a single space
(JS `replace(/\s+/g, ' ')` on char lists). -/
def collapseWs : List Char → List Char
  | [] => []
  | [c] => if isJsWs c then [' '] else [c]
  | c :: d :: cs =>
    if isJsWs c then
      if isJsWs d then collapseWs (d :: cs) else ' ' :: collapseWs (d :: cs)
    else c :: collapseWs (d :: cs)

/-- JS `String.prototype.trim` on char lists. -/
def jsTrim (l : List Char) : List Char :=
  ((l.dropWhile isJsWs).reverse.dropWhile isJsWs).reverse

/-- Whitespace normalization applied to the compact-line text field:
`text.replace(/\s+/g, ' ').trim()`. -/
def normalizeWs (s : String) : String :=
  ⟨jsTrim (collapseWs s.data)⟩

/-- Modelled JS builtin: the `hostname` of `new URL(href)` for an http(s)
`href`. The authority is the text between the scheme separator and the
first of `/`, `?`, `#`; userinfo up to the last `@` and a `:port` suffix
are removed and the result lowercased; an empty host makes the constructor
throw, modelled as `none`. -/
def jsUrlHostname (h : String) : Option String :=
  let rest :=
    if h.startsWith "http://" then (h.data.drop 7)
    else (h.data.drop 8)
  let authority := rest.takeWhile fun c => !(c == '/' || c == '?' || c == '#')
  let hostport :=
    if authority.contains '@' then (authority.reverse.takeWhile (· != '@')).reverse
    else authority
  let host := hostport.takeWhile (· != ':')
  if host.isEmpty then none
  else some (jsToLower ⟨host⟩)

/-- The `_compressHref` helper: second-level domain for absolute http(s)
URLs, last path segment for relative ones, each cut to 10 characters,
`item` as fallback. -/
def compressHref (href : Option String) : String :=
  match href with
  | none => ""
  | some h =>
    if h == "" then ""
    else if h.startsWith "http://" || h.startsWith "https://" then
      match jsUrlHostname h with
      | none => "item"
      | some host =>
        let parts := host.splitOn "."
        if 2 ≤ parts.length then
          ⟨(((parts.get? (parts.length - 2)).getD "").data.take 10)⟩
        else ⟨(host.data.take 10)⟩
    else
      let segments := (h.splitOn "/").filter fun s => !(s == "")
      match segments.getLast? with
      | some lastSeg => ⟨(lastSeg.data.take 10)⟩
      | none => "item"

/-- The rendered `role` column: `link` when the element has a truthy href,
`element` when the role is missing or empty. -/
def roleField (el : Element) : String :=
  if strTruthy el.href then "link"
  else
    let r := el.role.getD ""
    if r == "" then "element" else r

/-- The rendered `text` column: whitespace-normalized and truncated to 27
characters plus an ellipsis when longer than 30. -/
def nameField (el : Element) : String :=
  let n := normalizeWs (el.text.getD "")
  if 30 < n.data.length then (⟨n.data.take 27⟩ : String) ++ "..." else n

/-- The rendered `docYq` column: `Math.round(doc_y / 200)` (half away from
negative infinity), `0` when `doc_y` is falsy. -/
def docYqField (el : Element) : String :=
  let docY := el.doc_y.getD 0
  toString (if docY == 0 then (0 : Int) else Int.fdiv (docY + 100) 200)

/-- The rendered `is_primary` column. -/
def isPrimaryField (el : Element) : String :=
  if (el.visual_cues.map (·.is_primary)).getD false then "1" else "0"

/-- The rendered `ord` column: the rank of the element in the dominant
group when flagged and ranked, `-` otherwise. -/
def ordField (snap : Snapshot) (el : Element) : String :=
  if inDgFlag snap el then
    match mapGet (rankInGroupMap snap) el.id with
    | some r => toString r
    | none => "-"
  else "-"

/-- The rendered `DG` column. -/
def dgFlagField (snap : Snapshot) (el : Element) : String :=
  if inDgFlag snap el then "1" else "0"

/-- The nine columns of one compact line, in order:
`id|role|text|imp|is_primary|docYq|ord|DG|href`. -/
def lineFields (snap : Snapshot) (el : Element) : List String :=
  [toString el.id, roleField el, nameField el, toString (imp el),
   isPrimaryField el, docYqField el, ordField snap el, dgFlagField snap el,
   compressHref el.href]

/-- Join fields with the pipe separator (the template literal of the
source). -/
def joinPipe : List String → String
  | [] => ""
  | [f] => f
  | f :: rest => f ++ "|" ++ joinPipe rest

/-- One compact line for one selected element. -/
def lineFor (snap : Snapshot) (el : Element) : String :=
  joinPipe (lineFields snap el)

/-- `_formatSnapshotForLLM`: one line per selected element. -/
def formatSnapshotForLLM (cfg : TopElementSelector) (snap : Snapshot) : String :=
  String.intercalate "\n" ((selectedElements cfg snap).map (lineFor snap))
/-! ## Spec-side predicates and concrete instances used by the theorems -/

/-- The freshness condition under which `CachedSnapshot.get` serves the
cache (the right-hand side of spec invariant 3). -/
def cacheServes (st : CachedSnapshot) (forceRefresh : Bool) (now : Int) : Prop :=
  st.cached.isSome ∧ forceRefresh = false ∧ now - st.cachedAt ≤ st.maxAgeMs

instance (st : CachedSnapshot) (f : Bool) (n : Int) :
    Decidable (cacheServes st f n) := by
  unfold cacheServes
  infer_instance

/-- String `s` starts with `p` (on character data). -/
def strLeads (p s : String) : Prop :=
  ∃ t, s.data = p.data ++ t

/-- Loop invariant of the eventually driver: `lastOutcome` is either still
unset or the failing outcome of the wrapped predicate at some context. -/
def predLastShape (env : EventuallyEnv) (lo : Option AssertOutcome) : Prop :=
  lo = none ∨ ∃ c, (env.pred c).passed = false ∧ lo = some (env.pred c)

/-- Shape of a passing result of the eventually driver: the predicate
outcome at some context, annotated with `details.attempts = k`. -/
def passShape (cfg : EventuallyConfig) (env : EventuallyEnv) (lowAttempts : Nat)
    (r : AssertOutcome) : Prop :=
  ∃ c k, (env.pred c).passed = true ∧ r = withAttempts (env.pred c) k ∧
    lowAttempts + 1 ≤ k ∧ k ≤ cfg.maxRetries

/-- Shape of a failing result of the eventually driver: the last failing
predicate outcome with its reason prefixed by the termination cause, or —
when the budget is exhausted before any attempt — a fresh failing outcome
carrying the bare cause. -/
def failShape (cfg : EventuallyConfig) (env : EventuallyEnv) (r : AssertOutcome) : Prop :=
  r.passed = false ∧
  ((∃ (c : AssertContext) (t : Nat), (env.pred c).passed = false ∧
      r = { env.pred c with
              reason := "timeout after " ++ toString t ++ "ms: " ++ (env.pred c).reason }) ∨
   (∃ c, (env.pred c).passed = false ∧
      r = { env.pred c with
              reason := "max retries (" ++ toString cfg.maxRetries ++ ") exceeded: " ++
                (env.pred c).reason }) ∨
   (∃ (t : Nat) (a : Nat),
      r = { passed := false,
            reason := "timeout after " ++ toString t ++ "ms",
            details := [("attempts", DVal.num a)] }) ∨
   (∃ a : Nat,
      r = { passed := false,
            reason := "max retries (" ++ toString cfg.maxRetries ++ ") exceeded",
            details := [("attempts", DVal.num a)] }))

/-- Stated from the claim (for the C6 counterexample): the full population
of interactive dominant-group elements of a snapshot, in the rank order
`(doc_y, bbox.y, bbox.x, -importance)`, where an element belongs to the
dominant group when its `in_dominant_group` flag is true or its `group_key`
equals the snapshot's `dominant_group_key`. -/
def claimDgPopulation (snap : Snapshot) : List Element :=
  jsSortStable rankLe
    ((interSorted snap).filter fun el =>
      el.in_dominant_group == some true ||
        (strTruthy snap.dominant_group_key && (el.group_key == snap.dominant_group_key)))

/-- Concrete retry configuration for the C1 counterexample run. -/
def cfgCex : EventuallyConfig :=
  { timeout := 1000, poll := 600, maxRetries := 5 }

/-- Concrete environment for the C1 counterexample run: a predicate that
always fails, refreshes that return a null snapshot, and a clock advancing
600 ms per sleep. -/
def envCex : EventuallyEnv :=
  { pred := fun _ => { passed := false, reason := "nope", details := [] },
    snapshotFn := fun _ => Except.ok none,
    time := fun k => 600 * k }

/-- Concrete environment whose predicate passes at the first evaluation. -/
def envPass : EventuallyEnv :=
  { pred := fun _ => { passed := true, reason := "", details := [] },
    snapshotFn := fun _ => Except.ok none,
    time := fun k => 200 * k }

/-- Concrete configuration for the C7 witness. -/
def cfgThrow : EventuallyConfig :=
  { timeout := 1000, poll := 100, maxRetries := 3 }

/-- Concrete environment whose snapshot refresh always throws. -/
def envThrow : EventuallyEnv :=
  { pred := fun _ => { passed := false, reason := "f", details := [] },
    snapshotFn := fun _ => Except.error "boom",
    time := fun k => 100 * k }

/-- Concrete environment for the C8 witness: failing predicate, healthy
refresh, clock advancing exactly one poll interval per sleep. -/
def envBudget : EventuallyEnv :=
  { pred := fun _ => { passed := false, reason := "f", details := [] },
    snapshotFn := fun _ => Except.ok (some {}),
    time := fun k => 200 * k }

/-- Concrete captcha diagnostics with passive evidence only (the recaptcha
badge case of the runtime test suite). -/
def capPassive : CaptchaDiagnostics :=
  { detected := true, confidence := 95 / 100,
    provider_hint := some "recaptcha",
    evidence := { iframe_src_hits := ["https://www.google.com/recaptcha/api2/anchor?ar=1"] } }

/-- Concrete snapshot carrying the passive captcha diagnostics. -/
def capPassiveSnap : Snapshot :=
  { url := "https://example.com", diagnostics := some { captcha := some capPassive } }

/-- Concrete element whose text contains a pipe character. -/
def elPipe : Element :=
  { id := 1, role := some "button", text := some "a|b", importance := some 80,
    bbox := some ⟨0, 0, 100, 30⟩ }

/-- Concrete snapshot holding `elPipe`. -/
def snapPipe : Snapshot :=
  { elements := [elPipe] }

/-- Concrete well-formed element for the C5 witness. -/
def elPlain : Element :=
  { id := 3, role := some "button", text := some "Click   me\nplease", importance := some 70,
    bbox := some ⟨0, 0, 100, 30⟩ }

/-- Concrete snapshot holding `elPlain`. -/
def snapPlain : Snapshot :=
  { elements := [elPlain] }

/-- Dominant-group element carrying the explicit flag. -/
def e1Mixed : Element :=
  { id := 1, role := some "button", importance := some 50, doc_y := some 10,
    in_dominant_group := some true }

/-- Dominant-group element relying on the `group_key` fallback. -/
def e2Mixed : Element :=
  { id := 2, role := some "button", importance := some 40, doc_y := some 20,
    group_key := some "g" }

/-- Snapshot whose dominant group mixes flagged and fallback members. -/
def snapMixed : Snapshot :=
  { elements := [e1Mixed, e2Mixed], dominant_group_key := some "g" }

/-- Ranked dominant-group element (third by position). -/
def eRank1 : Element :=
  { id := 1, role := some "link", text := some "Third", importance := some 70,
    doc_y := some 300, in_dominant_group := some true }

/-- Ranked dominant-group element (first by position). -/
def eRank2 : Element :=
  { id := 2, role := some "link", text := some "First", importance := some 80,
    doc_y := some 100, in_dominant_group := some true }

/-- Ranked dominant-group element (second by position). -/
def eRank3 : Element :=
  { id := 3, role := some "link", text := some "Second", importance := some 90,
    doc_y := some 200, in_dominant_group := some true }

/-- Element outside the dominant group. -/
def eRank4 : Element :=
  { id := 4, role := some "button", text := some "Not in DG", importance := some 95,
    doc_y := some 50, in_dominant_group := some false }

/-- Consistent dominant-group snapshot for the C6 witness: three flagged
list items and one outside button. -/
def snapRanked : Snapshot :=
  { elements := [eRank1, eRank2, eRank3, eRank4] }

/-- Adjacent-character relation of a whitespace-normalized string: no two
consecutive spaces. -/
def noTwoSp (a b : Char) : Prop :=
  ¬(a = ' ' ∧ b = ' ')

/-! ## Theorems -/

/-- **C2**: `CachedSnapshot.get` returns the previously cached snapshot iff a
cached snapshot exists, `forceRefresh` is false, and the cache age is at most
`maxAgeMs`; in every other case the freshly fetched snapshot is returned and
stored as the new cache with `cachedAt` updated; and `ageMs` is infinity
(modelled `none`) exactly when the cache is empty. -/
theorem cachedSnapshot_get_spec (st : CachedSnapshot)
    (fetch : Option SnapshotOptions → Snapshot) (options : Option SnapshotOptions)
    (forceRefresh : Bool) (nowCheck nowStore : Int) :
    (cacheServes st forceRefresh nowCheck →
      ∀ s, st.cached = some s →
        st.get fetch options forceRefresh nowCheck nowStore = (s, st)) ∧
    (¬ cacheServes st forceRefresh nowCheck →
      let fresh := fetch (options.orElse fun _ => st.defaultOptions)
      st.get fetch options forceRefresh nowCheck nowStore =
        (fresh, { st with cached := some fresh, cachedAt := nowStore,
                          cachedUrl := some fresh.url })) ∧
    (∀ now, st.ageMs now = none ↔ st.cached = none) := by
  refine ⟨?_, ?_, ?_⟩
  · rintro ⟨h1, h2, h3⟩ s hs
    unfold CachedSnapshot.get CachedSnapshot.isStale
    rw [hs, h2]
    simp only [Bool.false_or]
    rw [if_neg]
    · simp [hs]
    · simp only [decide_eq_true_eq]
      omega
  · intro hnot
    unfold CachedSnapshot.get CachedSnapshot.isStale
    rcases hcase : st.cached with _ | s
    · simp
    · by_cases hf : forceRefresh
      · simp [hf]
      · have hage : st.maxAgeMs < nowCheck - st.cachedAt := by
          by_contra hle
          exact hnot ⟨by simp [hcase], by simpa using hf, by omega⟩
        simp [hf, hage]
  · intro now
    unfold CachedSnapshot.ageMs
    rcases st.cached with _ | s <;> simp

/-- C2 witness: evaluate the theorem on a concrete fresh-cache state. -/
theorem cachedSnapshot_get_spec_witness :
    (cacheServes { maxAgeMs := 2000, cached := some default, cachedAt := 100 } false 600 →
      ∀ s, ({ maxAgeMs := 2000, cached := some default, cachedAt := 100 } :
          CachedSnapshot).cached = some s →
        CachedSnapshot.get { maxAgeMs := 2000, cached := some default, cachedAt := 100 }
          (fun _ => default) none false 600 600 =
          (s, { maxAgeMs := 2000, cached := some default, cachedAt := 100 })) :=
  (cachedSnapshot_get_spec
    { maxAgeMs := 2000, cached := some default, cachedAt := 100 }
    (fun _ => default) none false 600 600).1

/-- **C9**: while the cache is fresh and `forceRefresh` is false, `get`
returns the cached snapshot unchanged for *every* value of the per-call
options, and the cache state is untouched. -/
theorem cachedSnapshot_get_ignores_options (st : CachedSnapshot) (s : Snapshot)
    (fetch : Option SnapshotOptions → Snapshot) (nowCheck nowStore : Int)
    (hc : st.cached = some s)
    (hage : nowCheck - st.cachedAt ≤ st.maxAgeMs) :
    ∀ options : Option SnapshotOptions,
      st.get fetch options false nowCheck nowStore = (s, st) := by
  intro options
  unfold CachedSnapshot.get CachedSnapshot.isStale
  rw [hc]
  simp only [Bool.false_or]
  rw [if_neg]
  · simp [hc]
  · simp only [decide_eq_true_eq]
    omega

/-- C9 witness: a fresh cache ignores a per-call `limit` override. -/
theorem cachedSnapshot_get_ignores_options_witness :
    CachedSnapshot.get { maxAgeMs := 2000, cached := some default, cachedAt := 100 }
        (fun _ => { url := "fresh" }) (some { limit := some 200 }) false 600 601 =
      (default, { maxAgeMs := 2000, cached := some default, cachedAt := 100 }) :=
  cachedSnapshot_get_ignores_options
    { maxAgeMs := 2000, cached := some default, cachedAt := 100 }
    default (fun _ => { url := "fresh" }) 600 601 rfl (by norm_num)
    (some { limit := some 200 })
/-- **C4**: a snapshot whose captcha diagnostics carry only passive evidence
(`iframe_src_hits` populated while `text_hits`, `selector_hits` and
`url_hits` are empty) never triggers captcha gating, regardless of the
reported confidence and of the configured minimum confidence. -/
theorem captcha_passive_never_gates (minConfidence : Rat) (snap : Snapshot)
    (d : Diagnostics) (c : CaptchaDiagnostics)
    (hd : snap.diagnostics = some d) (hc : d.captcha = some c)
    (hifr : c.evidence.iframe_src_hits ≠ [])
    (htext : c.evidence.text_hits = []) (hsel : c.evidence.selector_hits = [])
    (hurl : c.evidence.url_hits = []) :
    isCaptchaDetected minConfidence snap = false := by
  simp [isCaptchaDetected, hd, hc, htext, hsel]

/-- C4 witness: the passive recaptcha-badge snapshot of the runtime test
suite is not gated at `minConfidence = 0.1` despite confidence 0.95. -/
theorem captcha_passive_never_gates_witness :
    isCaptchaDetected (1 / 10) capPassiveSnap = false :=
  captcha_passive_never_gates (1 / 10) capPassiveSnap
    { captcha := some capPassive } capPassive rfl rfl (by simp [capPassive]) rfl rfl rfl

/-- **C3**: every predicate built from the primitives and combinators of the
verification algebra is pure: on equal contexts it yields equal outcomes
(same `passed`, `reason` and `details`); being a plain function of the
context, it performs no I/O, reads no clock and keeps no state between
evaluations. -/
theorem predicates_pure (e : PredExpr) (c1 c2 : AssertContext) (h : c1 = c2) :
    evalPred e c1 = evalPred e c2 := by
  rw [h]

/-- C3 witness: a composite predicate evaluated twice on one context. -/
theorem predicates_pure_witness :
    evalPred (PredExpr.allOfE [PredExpr.urlContainsE "/cart",
        PredExpr.existsE (QuerySelector.roleIs "button")])
      { url := some "https://shop.example/cart" } =
    evalPred (PredExpr.allOfE [PredExpr.urlContainsE "/cart",
        PredExpr.existsE (QuerySelector.roleIs "button")])
      { url := some "https://shop.example/cart" } :=
  predicates_pure _ _ _ rfl

/-- Helper: shifting the start index of `findIdx?` by one. -/
theorem findIdxQ_add_one (p : α → Bool) :
    ∀ (l : List α) (n : Nat),
      List.findIdx? p l (n + 1) = (List.findIdx? p l n).map (· + 1) := by
  intro l
  induction l with
  | nil => intro n; simp
  | cons a t ih =>
    intro n
    rw [List.findIdx?_cons, List.findIdx?_cons]
    by_cases h : p a
    · simp [h]
    · simp only [h, Bool.false_eq_true, if_false]
      exact ih (n + 1)

/-- Helper: the accumulator-passing loop of `anyOf` returns at the first
passing sub-predicate, reporting its absolute index and the details of the
sub-predicates evaluated up to that point. -/
theorem anyOfAux_firstPass (total : Nat) (c : AssertContext) :
    ∀ (l : List Predicate) (i : Nat) (ds : List DVal) (rs : List String) (j : Nat),
      List.findIdx? (fun p => (p c).passed) l = some j →
      anyOfAux total c l i ds rs =
        { passed := true, reason := "",
          details := [("subPredicates",
              DVal.arr (ds ++ (l.take (j + 1)).map fun p => DVal.obj (p c).details)),
            ("matchedAtIndex", DVal.num (i + j))] } := by
  intro l
  induction l with
  | nil => intro i ds rs j hj; simp at hj
  | cons p rest ih =>
    intro i ds rs j hj
    rw [List.findIdx?_cons] at hj
    by_cases hp : (p c).passed
    · rw [if_pos hp] at hj
      cases hj
      simp [anyOfAux, hp]
    · rw [if_neg (by simpa using hp), findIdxQ_add_one] at hj
      rcases hl : List.findIdx? (fun p => (p c).passed) rest with _ | j'
      · rw [hl] at hj; simp at hj
      · rw [hl] at hj
        simp at hj
        subst hj
        show anyOfAux total c (p :: rest) i ds rs = _
        unfold anyOfAux
        rw [if_neg (by simpa using hp)]
        rw [ih (i + 1) (ds ++ [DVal.obj (p c).details]) (rs ++ [(p c).reason]) j' hl]
        simp only [List.take_succ_cons, List.map_cons, List.append_assoc,
          List.singleton_append, AssertOutcome.mk.injEq, DVal.arr.injEq,
          and_true, true_and]
        have hnum : ((i + 1 : Nat) : Int) + (j' : Int) = (i : Int) + ((j' + 1 : Nat) : Int) := by
          push_cast
          ring
        rw [hnum]

/-- Helper: `passed` of the `anyOf` loop is the disjunction of the
sub-predicates. -/
theorem anyOfAux_passed (total : Nat) (c : AssertContext) :
    ∀ (l : List Predicate) (i : Nat) (ds : List DVal) (rs : List String),
      (anyOfAux total c l i ds rs).passed = l.any fun p => (p c).passed := by
  intro l
  induction l with
  | nil => intro i ds rs; simp [anyOfAux]
  | cons p rest ih =>
    intro i ds rs
    unfold anyOfAux
    by_cases hp : (p c).passed
    · simp [hp]
    · simp [hp, ih]

/-- **C10**: `allOf` passes iff every sub-predicate passes (the empty
conjunction passes), `anyOf` passes iff some sub-predicate passes (the
empty disjunction fails), and `anyOf` returns at the first passing
sub-predicate: when index `i` is the first passing one, the outcome records
`matchedAtIndex = i` and only the first `i + 1` sub-outcomes. -/
theorem allOf_anyOf_alg (c : AssertContext) :
    (∀ ps : List Predicate, (allOf ps c).passed = ps.all fun p => (p c).passed) ∧
    (allOf [] c).passed = true ∧
    (∀ ps : List Predicate, (anyOf ps c).passed = ps.any fun p => (p c).passed) ∧
    (anyOf [] c).passed = false ∧
    (∀ (ps : List Predicate) (i : Nat),
      List.findIdx? (fun p => (p c).passed) ps = some i →
      anyOf ps c =
        { passed := true, reason := "",
          details := [("subPredicates",
              DVal.arr ((ps.take (i + 1)).map fun p => DVal.obj (p c).details)),
            ("matchedAtIndex", DVal.num i)] }) := by
  refine ⟨?_, rfl, ?_, rfl, ?_⟩
  · intro ps
    rw [Bool.eq_iff_iff]
    simp only [allOf]
    simp [List.isEmpty_eq_true, List.filter_eq_nil_iff, List.all_eq_true]
  · intro ps
    exact anyOfAux_passed ps.length c ps 0 [] []
  · intro ps i hi
    have h := anyOfAux_firstPass ps.length c ps 0 [] [] i hi
    simpa using h

/-- C10 witness: evaluate the first-pass clause on a concrete two-element
disjunction whose second member passes. -/
theorem allOf_anyOf_alg_witness :
    anyOf [fun _ => { passed := false, reason := "f1", details := [] },
           fun _ => { passed := true, reason := "", details := [] }] {} =
      { passed := true, reason := "",
        details := [("subPredicates", DVal.arr [DVal.obj [], DVal.obj []]),
                    ("matchedAtIndex", DVal.num 1)] } := by
  have h := (allOf_anyOf_alg {}).2.2.2.2
    [fun _ => { passed := false, reason := "f1", details := [] },
     fun _ => { passed := true, reason := "", details := [] }] 1 (by rfl)
  simpa using h
/-- Helper: annotation does not change the verdict. -/
theorem withAttempts_passed (o : AssertOutcome) (k : Nat) :
    (withAttempts o k).passed = o.passed :=
  rfl

/-- Helper: every run of the retry loop ends in one of two shapes — a
passing predicate outcome annotated with an attempt count above the entry
counter, or a failing outcome labelled with its termination cause —
provided the snapshot callback never throws and `lastOutcome` satisfies
the loop invariant. -/
theorem evaluateLoop_shapes (cfg : EventuallyConfig) (env : EventuallyEnv)
    (hsnap : ∀ s, ∃ v, env.snapshotFn s = Except.ok v) :
    ∀ (fuel attempts : Nat), cfg.maxRetries - attempts ≤ fuel →
    ∀ (ctx : AssertContext) (lo : Option AssertOutcome) (snapCalls sleeps : Nat),
      predLastShape env lo →
      passShape cfg env attempts
          (evaluateLoop cfg env ctx lo attempts snapCalls sleeps).outcome ∨
      failShape cfg env
          (evaluateLoop cfg env ctx lo attempts snapCalls sleeps).outcome := by
  intro fuel
  induction fuel with
  | zero =>
    intro a hfa ctx lo s k hlo
    rw [evaluateLoop.eq_def]
    by_cases h1 : cfg.timeout ≤ env.time k
    · rw [dif_pos h1]
      rcases hlo with rfl | ⟨c, hcf, rfl⟩
      · exact Or.inr ⟨rfl, Or.inr (Or.inr (Or.inl ⟨env.time k, a, rfl⟩))⟩
      · exact Or.inr ⟨hcf, Or.inl ⟨c, env.time k, hcf, rfl⟩⟩
    · rw [dif_neg h1, dif_pos (show cfg.maxRetries ≤ a by omega)]
      rcases hlo with rfl | ⟨c, hcf, rfl⟩
      · exact Or.inr ⟨rfl, Or.inr (Or.inr (Or.inr ⟨a, rfl⟩))⟩
      · exact Or.inr ⟨hcf, Or.inr (Or.inl ⟨c, hcf, rfl⟩)⟩
  | succ n ih =>
    intro a hfa ctx lo s k hlo
    rw [evaluateLoop.eq_def]
    by_cases h1 : cfg.timeout ≤ env.time k
    · rw [dif_pos h1]
      rcases hlo with rfl | ⟨c, hcf, rfl⟩
      · exact Or.inr ⟨rfl, Or.inr (Or.inr (Or.inl ⟨env.time k, a, rfl⟩))⟩
      · exact Or.inr ⟨hcf, Or.inl ⟨c, env.time k, hcf, rfl⟩⟩
    · rw [dif_neg h1]
      by_cases h2 : cfg.maxRetries ≤ a
      · rw [dif_pos h2]
        rcases hlo with rfl | ⟨c, hcf, rfl⟩
        · exact Or.inr ⟨rfl, Or.inr (Or.inr (Or.inr ⟨a, rfl⟩))⟩
        · exact Or.inr ⟨hcf, Or.inr (Or.inl ⟨c, hcf, rfl⟩)⟩
      · rw [dif_neg h2]
        by_cases h3 : a = 0
        · rw [dif_pos h3]
          by_cases hp : (env.pred ctx).passed
          · rw [if_pos hp]
            exact Or.inl ⟨ctx, a + 1, hp, rfl, by omega, by omega⟩
          · rw [if_neg hp]
            by_cases h4 : a + 1 < cfg.maxRetries
            · rw [if_pos h4]
              by_cases h5 : env.time k + cfg.poll < cfg.timeout
              · rw [if_pos h5]
                rcases ih (a + 1) (by omega) ctx (some (env.pred ctx)) s (k + 1)
                    (Or.inr ⟨ctx, by simpa using hp, rfl⟩) with hpass | hfail
                · obtain ⟨c, kk, hc1, hc2, hc3, hc4⟩ := hpass
                  exact Or.inl ⟨c, kk, hc1, hc2, by omega, hc4⟩
                · exact Or.inr hfail
              · rw [if_neg h5]
                exact Or.inr ⟨by simpa using hp,
                  Or.inl ⟨ctx, env.time k, by simpa using hp, rfl⟩⟩
            · rw [if_neg h4]
              rcases ih (a + 1) (by omega) ctx (some (env.pred ctx)) s k
                  (Or.inr ⟨ctx, by simpa using hp, rfl⟩) with hpass | hfail
              · obtain ⟨c, kk, hc1, hc2, hc3, hc4⟩ := hpass
                exact Or.inl ⟨c, kk, hc1, hc2, by omega, hc4⟩
              · exact Or.inr hfail
        · rw [dif_neg h3]
          obtain ⟨v, hv⟩ := hsnap s
          rw [hv]
          dsimp only
          by_cases hp : (env.pred (refreshCtx ctx v)).passed
          · rw [if_pos hp]
            exact Or.inl ⟨refreshCtx ctx v, a + 1, hp, rfl, by omega, by omega⟩
          · rw [if_neg hp]
            by_cases h4 : a + 1 < cfg.maxRetries
            · rw [if_pos h4]
              by_cases h5 : env.time k + cfg.poll < cfg.timeout
              · rw [if_pos h5]
                rcases ih (a + 1) (by omega) (refreshCtx ctx v)
                    (some (env.pred (refreshCtx ctx v))) (s + 1) (k + 1)
                    (Or.inr ⟨refreshCtx ctx v, by simpa using hp, rfl⟩) with hpass | hfail
                · obtain ⟨c, kk, hc1, hc2, hc3, hc4⟩ := hpass
                  exact Or.inl ⟨c, kk, hc1, hc2, by omega, hc4⟩
                · exact Or.inr hfail
              · rw [if_neg h5]
                exact Or.inr ⟨by simpa using hp,
                  Or.inl ⟨refreshCtx ctx v, env.time k, by simpa using hp, rfl⟩⟩
            · rw [if_neg h4]
              rcases ih (a + 1) (by omega) (refreshCtx ctx v)
                  (some (env.pred (refreshCtx ctx v))) (s + 1) k
                  (Or.inr ⟨refreshCtx ctx v, by simpa using hp, rfl⟩) with hpass | hfail
              · obtain ⟨c, kk, hc1, hc2, hc3, hc4⟩ := hpass
                exact Or.inl ⟨c, kk, hc1, hc2, by omega, hc4⟩
              · exact Or.inr hfail

/-- **C1** (amended): when the snapshot callback never throws,
`EventuallyWrapper.evaluate` either returns a passing outcome — the wrapped
predicate's own outcome at some context, annotated with
`details.attempts = k` for some `1 ≤ k ≤ maxRetries` — or a failing outcome
whose reason starts with the reported termination cause
(`timeout after ...` or `max retries (...)`), and which is the last failing
predicate outcome with its reason prefixed by that cause, or a bare-cause
outcome when the budget was exhausted before any attempt. The `timeout`
cause is also reported when, after a failing attempt, the time remaining
before the deadline is at most the poll interval, so the reported elapsed
value can be below `timeoutMs`. -/
theorem eventually_evaluate_spec (cfg : EventuallyConfig) (env : EventuallyEnv)
    (ctx : AssertContext)
    (hsnap : ∀ s, ∃ v, env.snapshotFn s = Except.ok v) :
    ((EventuallyWrapper.evaluate cfg env ctx).outcome.passed = true →
      ∃ c k, (env.pred c).passed = true ∧
        (EventuallyWrapper.evaluate cfg env ctx).outcome = withAttempts (env.pred c) k ∧
        1 ≤ k ∧ k ≤ cfg.maxRetries) ∧
    ((EventuallyWrapper.evaluate cfg env ctx).outcome.passed = false →
      (strLeads "timeout after " (EventuallyWrapper.evaluate cfg env ctx).outcome.reason ∨
       strLeads "max retries (" (EventuallyWrapper.evaluate cfg env ctx).outcome.reason) ∧
      failShape cfg env (EventuallyWrapper.evaluate cfg env ctx).outcome) := by
  have h := evaluateLoop_shapes cfg env hsnap cfg.maxRetries 0 (by omega) ctx none 0 0
    (Or.inl rfl)
  rw [show evaluateLoop cfg env ctx none 0 0 0 = EventuallyWrapper.evaluate cfg env ctx
    from rfl] at h
  constructor
  · intro hpassed
    rcases h with hpass | hfail
    · obtain ⟨c, k, hc1, hc2, hc3, hc4⟩ := hpass
      exact ⟨c, k, hc1, hc2, by omega, hc4⟩
    · rw [hfail.1] at hpassed
      exact absurd hpassed (by simp)
  · intro hfailed
    rcases h with hpass | hfail
    · obtain ⟨c, k, hc1, hc2, _, _⟩ := hpass
      rw [hc2, withAttempts_passed, hc1] at hfailed
      exact absurd hfailed (by simp)
    · refine ⟨?_, hfail⟩
      rcases hfail.2 with ⟨c, t, _, hr⟩ | ⟨c, _, hr⟩ | ⟨t, a2, hr⟩ | ⟨a2, hr⟩
      · left
        rw [hr]
        exact ⟨(toString t).data ++ ("ms: " ++ (env.pred c).reason).data,
          by simp [String.data_append]⟩
      · right
        rw [hr]
        exact ⟨(toString cfg.maxRetries).data ++ (") exceeded: " ++ (env.pred c).reason).data,
          by simp [String.data_append]⟩
      · left
        rw [hr]
        exact ⟨(toString t).data ++ "ms".data, by simp [String.data_append]⟩
      · right
        rw [hr]
        exact ⟨(toString cfg.maxRetries).data ++ ") exceeded".data,
          by simp [String.data_append]⟩

/-- C1 witness: the amended specification evaluated on a predicate that
passes immediately. -/
theorem eventually_evaluate_spec_witness :
    ((EventuallyWrapper.evaluate {} envPass {}).outcome.passed = true →
      ∃ c k, (envPass.pred c).passed = true ∧
        (EventuallyWrapper.evaluate {} envPass {}).outcome =
          withAttempts (envPass.pred c) k ∧
        1 ≤ k ∧ k ≤ ({} : EventuallyConfig).maxRetries) ∧
    ((EventuallyWrapper.evaluate {} envPass {}).outcome.passed = false →
      (strLeads "timeout after " (EventuallyWrapper.evaluate {} envPass {}).outcome.reason ∨
       strLeads "max retries (" (EventuallyWrapper.evaluate {} envPass {}).outcome.reason) ∧
      failShape {} envPass (EventuallyWrapper.evaluate {} envPass {}).outcome) :=
  eventually_evaluate_spec {} envPass {} (fun _ => ⟨none, rfl⟩)

/-- C1 counterexample: with `timeout = 1000`, `poll = 600`, `maxRetries = 5`,
an always-failing predicate and a clock advancing 600 ms per sleep, the
evaluation returns a `timeout after 600ms:`-prefixed outcome although the
elapsed time at return (600 ms) never reached `timeoutMs` and only 2 of 5
attempts were used — so the code terminated before any of the three causes
named by the claim had occurred, and labelled the result as a timeout. -/
theorem eventually_evaluate_counterexample :
    (EventuallyWrapper.evaluate cfgCex envCex {}).outcome.passed = false ∧
    (EventuallyWrapper.evaluate cfgCex envCex {}).outcome.reason =
      "timeout after 600ms: nope" ∧
    envCex.time (EventuallyWrapper.evaluate cfgCex envCex {}).sleeps < cfgCex.timeout ∧
    (EventuallyWrapper.evaluate cfgCex envCex {}).attempts < cfgCex.maxRetries := by
  have hrun : EventuallyWrapper.evaluate cfgCex envCex {} =
      ⟨{ passed := false, reason := "timeout after 600ms: nope", details := [] }, 2, 1⟩ := by
    simp [EventuallyWrapper.evaluate, evaluateLoop, cfgCex, envCex, refreshCtx]
    rfl
  rw [hrun]
  refine ⟨rfl, rfl, ?_, ?_⟩
  · show envCex.time 1 < cfgCex.timeout
    norm_num [envCex, cfgCex]
  · show 2 < cfgCex.maxRetries
    norm_num [cfgCex]

/-- **C7**: an error thrown by the snapshot-refresh callback at the
predicate boundary is caught and converted into a failing outcome whose
reason names the error, counted as one more failed attempt and slept over;
the loop then continues, so no such error propagates out of
`EventuallyWrapper.evaluate` (whose result type carries no error case). -/
theorem eventually_refresh_error_converted (cfg : EventuallyConfig)
    (env : EventuallyEnv) (ctx : AssertContext) (lo : Option AssertOutcome)
    (a s k : Nat) (e : String)
    (ht : env.time k < cfg.timeout) (ha : a < cfg.maxRetries) (h0 : 0 < a)
    (he : env.snapshotFn s = Except.error e) :
    evaluateLoop cfg env ctx lo a s k =
      evaluateLoop cfg env ctx (some (snapFailOutcome a e)) (a + 1) (s + 1) (k + 1) ∧
    (snapFailOutcome a e).passed = false ∧
    (snapFailOutcome a e).reason = "failed to take snapshot: " ++ e := by
  refine ⟨?_, rfl, rfl⟩
  conv_lhs => rw [evaluateLoop.eq_def]
  rw [dif_neg (show ¬ cfg.timeout ≤ env.time k by omega),
    dif_neg (show ¬ cfg.maxRetries ≤ a by omega),
    dif_neg (show ¬ a = 0 by omega), he]

/-- C7 witness: a concrete refresh throw (`boom`) at attempt 1 is converted
and counted. -/
theorem eventually_refresh_error_converted_witness :
    (evaluateLoop cfgThrow envThrow {} none 1 0 0 =
      evaluateLoop cfgThrow envThrow {} (some (snapFailOutcome 1 "boom")) 2 1 1) ∧
    (snapFailOutcome 1 "boom").passed = false ∧
    (snapFailOutcome 1 "boom").reason = "failed to take snapshot: " ++ "boom" :=
  eventually_refresh_error_converted cfgThrow envThrow {} none 1 0 0 "boom"
    (by norm_num [envThrow, cfgThrow]) (by norm_num [cfgThrow]) (by norm_num) rfl

/-- Helper: the retry loop keeps the elapsed clock below
`timeout + poll` and the attempt counter at or below `maxRetries`,
assuming each sleep advances the clock by at most one poll interval. -/
theorem evaluateLoop_budget (cfg : EventuallyConfig) (env : EventuallyEnv)
    (hstep : ∀ k, env.time (k + 1) ≤ env.time k + cfg.poll) :
    ∀ (fuel a : Nat), cfg.maxRetries - a ≤ fuel → a ≤ cfg.maxRetries →
    ∀ (ctx : AssertContext) (lo : Option AssertOutcome) (s k : Nat),
      env.time k ≤ cfg.timeout + cfg.poll →
      env.time (evaluateLoop cfg env ctx lo a s k).sleeps ≤ cfg.timeout + cfg.poll ∧
      (evaluateLoop cfg env ctx lo a s k).attempts ≤ cfg.maxRetries := by
  intro fuel
  induction fuel with
  | zero =>
    intro a hfa ha ctx lo s k hk
    rw [evaluateLoop.eq_def]
    by_cases h1 : cfg.timeout ≤ env.time k
    · rw [dif_pos h1]
      cases lo <;> exact ⟨hk, ha⟩
    · rw [dif_neg h1, dif_pos (show cfg.maxRetries ≤ a by omega)]
      cases lo <;> exact ⟨hk, ha⟩
  | succ n ih =>
    intro a hfa ha ctx lo s k hk
    rw [evaluateLoop.eq_def]
    by_cases h1 : cfg.timeout ≤ env.time k
    · rw [dif_pos h1]
      cases lo <;> exact ⟨hk, ha⟩
    · rw [dif_neg h1]
      by_cases h2 : cfg.maxRetries ≤ a
      · rw [dif_pos h2]
        cases lo <;> exact ⟨hk, ha⟩
      · rw [dif_neg h2]
        by_cases h3 : a = 0
        · rw [dif_pos h3]
          by_cases hp : (env.pred ctx).passed
          · rw [if_pos hp]
            exact ⟨hk, by dsimp only; omega⟩
          · rw [if_neg hp]
            by_cases h4 : a + 1 < cfg.maxRetries
            · rw [if_pos h4]
              by_cases h5 : env.time k + cfg.poll < cfg.timeout
              · rw [if_pos h5]
                exact ih (a + 1) (by omega) (by omega) ctx _ s (k + 1)
                  (by have := hstep k; omega)
              · rw [if_neg h5]
                exact ⟨hk, by dsimp only; omega⟩
            · rw [if_neg h4]
              exact ih (a + 1) (by omega) (by omega) ctx _ s k hk
        · rw [dif_neg h3]
          rcases hsf : env.snapshotFn s with e | v
          · dsimp only
            exact ih (a + 1) (by omega) (by omega) ctx _ (s + 1) (k + 1)
              (by have := hstep k; omega)
          · dsimp only
            by_cases hp : (env.pred (refreshCtx ctx v)).passed
            · rw [if_pos hp]
              exact ⟨hk, by dsimp only; omega⟩
            · rw [if_neg hp]
              by_cases h4 : a + 1 < cfg.maxRetries
              · rw [if_pos h4]
                by_cases h5 : env.time k + cfg.poll < cfg.timeout
                · rw [if_pos h5]
                  exact ih (a + 1) (by omega) (by omega) (refreshCtx ctx v) _ (s + 1)
                    (k + 1) (by have := hstep k; omega)
                · rw [if_neg h5]
                  exact ⟨hk, by dsimp only; omega⟩
              · rw [if_neg h4]
                exact ih (a + 1) (by omega) (by omega) (refreshCtx ctx v) _ (s + 1) k hk

/-- **C8**: when the predicate and the snapshot-refresh callback never
throw (predicates cannot throw in this model), `EventuallyWrapper.evaluate`
always terminates — the loop is a total function, each non-returning
iteration strictly increments the attempt counter, and the counter stays
bounded by `maxRetries` — and, with the clock starting at 0 and each sleep
advancing it by at most `pollMs`, the elapsed wall time at return is at
most `timeoutMs + pollMs`. -/
theorem eventually_terminates_within_budget (cfg : EventuallyConfig)
    (env : EventuallyEnv) (ctx : AssertContext)
    (h0 : env.time 0 = 0)
    (hstep : ∀ k, env.time (k + 1) ≤ env.time k + cfg.poll)
    (hsnap : ∀ s, ∃ v, env.snapshotFn s = Except.ok v) :
    env.time (EventuallyWrapper.evaluate cfg env ctx).sleeps ≤ cfg.timeout + cfg.poll ∧
    (EventuallyWrapper.evaluate cfg env ctx).attempts ≤ cfg.maxRetries := by
  have _ := hsnap
  exact evaluateLoop_budget cfg env hstep cfg.maxRetries 0 (by omega) (by omega)
    ctx none 0 0 (by omega)

/-- C8 witness: a failing predicate under the default configuration with a
clock advancing one poll interval per sleep stays within the budget. -/
theorem eventually_terminates_within_budget_witness :
    envBudget.time (EventuallyWrapper.evaluate {} envBudget {}).sleeps ≤
      ({} : EventuallyConfig).timeout + ({} : EventuallyConfig).poll ∧
    (EventuallyWrapper.evaluate {} envBudget {}).attempts ≤
      ({} : EventuallyConfig).maxRetries :=
  eventually_terminates_within_budget {} envBudget {} rfl
    (fun k => by simp [envBudget]; omega) (fun _ => ⟨some {}, rfl⟩)
/-- Helper: `noTwoSp` is symmetric. -/
theorem noTwoSp_symm (a b : Char) (h : noTwoSp a b) : noTwoSp b a := by
  unfold noTwoSp at *
  tauto

/-- Helper: every whitespace character surviving `collapseWs` is a space. -/
theorem collapseWs_mem_ws : ∀ (l : List Char), ∀ c ∈ collapseWs l, isJsWs c → c = ' '
  | [] => by simp [collapseWs]
  | [c] => by
    by_cases h : isJsWs c
    · intro x hx hw
      rcases (by simpa [collapseWs, h] using hx : x = ' ') with rfl
      rfl
    · intro x hx hw
      rcases (by simpa [collapseWs, h] using hx : x = c) with rfl
      exact absurd hw (by simp [h])
  | c :: d :: cs => by
    have ih := collapseWs_mem_ws (d :: cs)
    by_cases h1 : isJsWs c
    · by_cases h2 : isJsWs d
      · simpa [collapseWs, h1, h2] using ih
      · intro x hx hwx
        rcases (by simpa [collapseWs, h1, h2] using hx :
            x = ' ' ∨ x ∈ collapseWs (d :: cs)) with rfl | hx2
        · rfl
        · exact ih x hx2 hwx
    · intro x hx hwx
      rcases (by simpa [collapseWs, h1] using hx :
          x = c ∨ x ∈ collapseWs (d :: cs)) with rfl | hx2
      · exact absurd hwx (by simp [h1])
      · exact ih x hx2 hwx

/-- Helper: `collapseWs` keeps a leading non-whitespace character in place. -/
theorem collapseWs_head_not_ws (c : Char) (cs : List Char) (h : isJsWs c = false) :
    (collapseWs (c :: cs)).head? = some c := by
  cases cs <;> simp [collapseWs, h]

/-- Helper: the output of `collapseWs` has no two consecutive spaces. -/
theorem collapseWs_chain : ∀ (l : List Char), List.Chain' noTwoSp (collapseWs l)
  | [] => by simp [collapseWs]
  | [c] => by by_cases h : isJsWs c <;> simp [collapseWs, h]
  | c :: d :: cs => by
    have ih := collapseWs_chain (d :: cs)
    by_cases h1 : isJsWs c
    · by_cases h2 : isJsWs d
      · simpa [collapseWs, h1, h2] using ih
      · rw [show collapseWs (c :: d :: cs) = ' ' :: collapseWs (d :: cs) by
          simp [collapseWs, h1, h2]]
        rw [List.chain'_cons']
        refine ⟨?_, ih⟩
        intro y hy
        rw [collapseWs_head_not_ws d cs (by simpa using h2)] at hy
        rcases (by simpa using hy : d = y) with rfl
        intro hcon
        exact absurd (hcon.2 ▸ h2) (by simp [isJsWs])
    · rw [show collapseWs (c :: d :: cs) = c :: collapseWs (d :: cs) by
        simp [collapseWs, h1]]
      rw [List.chain'_cons']
      refine ⟨?_, ih⟩
      intro y _ hcon
      exact absurd (hcon.1 ▸ h1) (by simp [isJsWs])

/-- Helper: `Chain'` survives dropping a leading segment. -/
theorem chain_dropWhile {α} {R : α → α → Prop} (p : α → Bool) :
    ∀ (l : List α), List.Chain' R l → List.Chain' R (l.dropWhile p)
  | [] => by simp
  | a :: l => by
    intro h
    rw [List.dropWhile_cons]
    by_cases hp : p a
    · simp only [hp, if_true]
      exact chain_dropWhile p l h.tail
    · simpa [hp] using h

/-- Helper: `Chain'` of a symmetric relation survives reversal. -/
theorem chain_reverse_of_symm {α} {R : α → α → Prop}
    (hs : ∀ a b, R a b → R b a) (l : List α) (h : List.Chain' R l) :
    List.Chain' R l.reverse := by
  rw [List.chain'_reverse]
  exact h.imp fun a b hab => hs a b hab

/-- Helper: trimming keeps the no-two-spaces property. -/
theorem jsTrim_chain (l : List Char) (h : List.Chain' noTwoSp l) :
    List.Chain' noTwoSp (jsTrim l) := by
  unfold jsTrim
  exact chain_reverse_of_symm noTwoSp_symm _
    (chain_dropWhile _ _ (chain_reverse_of_symm noTwoSp_symm _ (chain_dropWhile _ _ h)))

/-- Helper: trimming only removes characters. -/
theorem mem_jsTrim (l : List Char) : ∀ c ∈ jsTrim l, c ∈ l := by
  intro c hc
  unfold jsTrim at hc
  rw [List.mem_reverse] at hc
  have hc2 := (List.dropWhile_sublist _).mem hc
  rw [List.mem_reverse] at hc2
  exact (List.dropWhile_sublist _).mem hc2

/-- Helper: counting pipes in a pipe-joined line whose fields are
pipe-free. -/
theorem joinPipe_count : ∀ (fs : List String), fs ≠ [] →
    (∀ f ∈ fs, f.data.count '|' = 0) →
    (joinPipe fs).data.count '|' = fs.length - 1
  | [], h, _ => absurd rfl h
  | [f], _, h => by simpa using h f (by simp)
  | f :: g :: rest, _, h => by
    have ih := joinPipe_count (g :: rest) (by simp)
      (fun x hx => h x (by simp [List.mem_cons] at hx ⊢; tauto))
    rw [show joinPipe (f :: g :: rest) = f ++ "|" ++ joinPipe (g :: rest) from rfl]
    rw [String.data_append, String.data_append, List.count_append, List.count_append]
    rw [h f (by simp), ih]
    have hb : ("|".data.count '|') = 1 := rfl
    rw [hb]
    simp only [List.length_cons]
    omega

/-- **C5** (amended): every compact line consists of exactly 9 fields; the
line has exactly 8 pipe separators whenever none of the rendered field
values itself contains a pipe character; the text field (field index 2) is
the whitespace-normalization of the element text, truncated to the first
27 characters plus `...` exactly when the normalized text exceeds 30
characters; and it never exceeds 30 characters, contains no whitespace
other than single spaces, and never two spaces in a row. -/
theorem compact_line_format (cfg : TopElementSelector) (snap : Snapshot) (el : Element)
    (hmem : el ∈ selectedElements cfg snap) :
    (lineFields snap el).length = 9 ∧
    ((∀ f ∈ lineFields snap el, f.data.count '|' = 0) →
      (lineFor snap el).data.count '|' = 8) ∧
    (lineFields snap el).get? 2 = some (nameField el) ∧
    nameField el =
      (if 30 < (normalizeWs (el.text.getD "")).data.length then
        (⟨(normalizeWs (el.text.getD "")).data.take 27⟩ : String) ++ "..."
      else normalizeWs (el.text.getD "")) ∧
    (nameField el).data.length ≤ 30 ∧
    (∀ c ∈ (nameField el).data, isJsWs c → c = ' ') ∧
    List.Chain' noTwoSp (nameField el).data := by
  have _ := hmem
  have hnorm : ∀ c ∈ (normalizeWs (el.text.getD "")).data, isJsWs c → c = ' ' := by
    intro c hc hw
    exact collapseWs_mem_ws _ c (mem_jsTrim _ c hc) hw
  have hchain : List.Chain' noTwoSp (normalizeWs (el.text.getD "")).data :=
    jsTrim_chain _ (collapseWs_chain _)
  refine ⟨rfl, ?_, rfl, rfl, ?_, ?_, ?_⟩
  · intro hf
    have := joinPipe_count (lineFields snap el) (by simp [lineFields]) hf
    rw [show (lineFields snap el).length = 9 from rfl] at this
    exact this
  · unfold nameField
    by_cases h : 30 < (normalizeWs (el.text.getD "")).data.length
    · rw [if_pos h]
      rw [String.data_append]
      have : ((⟨(normalizeWs (el.text.getD "")).data.take 27⟩ : String)).data =
          (normalizeWs (el.text.getD "")).data.take 27 := rfl
      rw [this, List.length_append, List.length_take]
      have : ("...".data).length = 3 := rfl
      omega
    · rw [if_neg h]
      omega
  · unfold nameField
    by_cases h : 30 < (normalizeWs (el.text.getD "")).data.length
    · rw [if_pos h]
      intro c hc hw
      rw [String.data_append] at hc
      rcases List.mem_append.mp hc with hc1 | hc2
      · exact hnorm c ((List.take_sublist _ _).mem hc1) hw
      · rcases (by simpa using hc2 : c = '.') with rfl
        exact absurd hw (by simp [isJsWs])
    · rw [if_neg h]
      exact hnorm
  · unfold nameField
    by_cases h : 30 < (normalizeWs (el.text.getD "")).data.length
    · rw [if_pos h]
      rw [String.data_append]
      rw [List.chain'_append]
      refine ⟨hchain.take 27, by simp [noTwoSp], ?_⟩
      intro x _ y hy
      rcases (by simpa using hy : '.' = y) with rfl
      intro hcon
      simp at hcon
    · rw [if_neg h]
      exact hchain

/-- C5 witness: the line for a concrete selected element with messy
whitespace. -/
theorem compact_line_format_witness :
    ((lineFields snapPlain elPlain).length = 9 ∧
    ((∀ f ∈ lineFields snapPlain elPlain, f.data.count '|' = 0) →
      (lineFor snapPlain elPlain).data.count '|' = 8) ∧
    (lineFields snapPlain elPlain).get? 2 = some (nameField elPlain) ∧
    nameField elPlain =
      (if 30 < (normalizeWs (elPlain.text.getD "")).data.length then
        (⟨(normalizeWs (elPlain.text.getD "")).data.take 27⟩ : String) ++ "..."
      else normalizeWs (elPlain.text.getD "")) ∧
    (nameField elPlain).data.length ≤ 30 ∧
    (∀ c ∈ (nameField elPlain).data, isJsWs c → c = ' ') ∧
    List.Chain' noTwoSp (nameField elPlain).data) :=
  compact_line_format {} snapPlain elPlain (by decide)

/-- C5 counterexample: an element whose text contains a pipe character is
selected and its rendered line carries 9 pipe characters, not 8. -/
theorem compact_line_counterexample :
    elPipe ∈ selectedElements {} snapPipe ∧
    (lineFor snapPipe elPipe).data.count '|' = 9 ∧ (9 : Nat) ≠ 8 := by
  refine ⟨by decide, by decide, by decide⟩

/-- Helper: overwriting every matching entry makes lookup at the written
key return the new value, provided some entry matches. -/
theorem mapGet_map_overwrite (k : Int) (v : Nat) :
    ∀ (m : List (Int × Nat)), m.any (fun p => p.1 == k) = true →
      mapGet (m.map fun p => if p.1 == k then (k, v) else p) k = some v
  | [] => by simp
  | p :: t => by
    intro hany
    rw [List.map_cons]
    by_cases hk : p.1 == k
    · simp only [hk, if_true]
      unfold mapGet
      rw [List.find?_cons_of_pos]
      · rfl
      · simp
    · simp only [hk, Bool.false_eq_true, if_false]
      unfold mapGet
      rw [List.find?_cons_of_neg]
      · exact mapGet_map_overwrite k v t (by simpa [List.any_cons, hk] using hany)
      · simp [hk]

/-- Helper: overwriting entries at key `k` leaves lookups at other keys
unchanged. -/
theorem mapGet_map_overwrite_ne (k kq : Int) (v : Nat) (hne : ¬kq = k) :
    ∀ (m : List (Int × Nat)),
      mapGet (m.map fun p => if p.1 == k then (k, v) else p) kq = mapGet m kq
  | [] => rfl
  | p :: t => by
    rw [List.map_cons]
    by_cases hk : p.1 == k
    · simp only [hk, if_true]
      unfold mapGet
      rw [List.find?_cons_of_neg, List.find?_cons_of_neg]
      · exact mapGet_map_overwrite_ne k kq v hne t
      · simp only [eq_of_beq hk]
        simpa using fun hcon => hne hcon.symm
      · simpa using fun hcon => hne hcon.symm
    · simp only [hk, Bool.false_eq_true, if_false]
      by_cases hq : p.1 == kq
      · unfold mapGet
        rw [List.find?_cons_of_pos, List.find?_cons_of_pos]
        · simp [hq]
        · simp [hq]
      · unfold mapGet
        rw [List.find?_cons_of_neg, List.find?_cons_of_neg]
        · exact mapGet_map_overwrite_ne k kq v hne t
        · simp [hq]
        · simp [hq]

/-- Helper: `mapGet` after `mapSet` at the written key. -/
theorem mapGet_mapSet_self (m : List (Int × Nat)) (k : Int) (v : Nat) :
    mapGet (mapSet m k v) k = some v := by
  unfold mapSet
  by_cases hany : m.any (fun p => p.1 == k)
  · rw [if_pos hany]
    exact mapGet_map_overwrite k v m hany
  · rw [if_neg hany]
    unfold mapGet
    rw [List.find?_append]
    have hnone : m.find? (fun p => p.1 == k) = none := by
      rw [List.find?_eq_none]
      intro x hx hbx
      exact hany (List.any_eq_true.mpr ⟨x, hx, hbx⟩)
    rw [hnone]
    simp

/-- Helper: `mapGet` after `mapSet` at a different key. -/
theorem mapGet_mapSet_ne (m : List (Int × Nat)) (k kq : Int) (v : Nat)
    (hne : ¬kq = k) : mapGet (mapSet m k v) kq = mapGet m kq := by
  unfold mapSet
  by_cases hany : m.any (fun p => p.1 == k)
  · rw [if_pos hany]
    exact mapGet_map_overwrite_ne k kq v hne m
  · rw [if_neg hany]
    unfold mapGet
    rw [List.find?_append]
    have hone : List.find? (fun p => p.1 == kq) [(k, v)] = none := by
      simp only [List.find?_cons, List.find?_nil]
      rw [show (((k, v) : Int × Nat).1 == kq) = false from by
        simpa using fun hcon => hne hcon.symm]
    rw [hone]
    simp

/-- Helper: with distinct element ids, the `forEach` rank map looks up to
the absolute rank of the id in the ranked list. -/
theorem rankMapFrom_get : ∀ (l : List Element) (m : List (Int × Nat)) (i : Nat) (k : Int),
    ((l.map fun e => e.id).Nodup) →
    mapGet (rankMapFrom i l m) k =
      (match (l.map fun e => e.id).findIdx? (· == k) with
       | some j => some (i + j)
       | none => mapGet m k)
  | [], m, i, k => by simp [rankMapFrom]
  | el :: rest, m, i, k => by
    intro hnd
    simp only [List.map_cons] at hnd
    have hpair := List.nodup_cons.mp hnd
    rw [show rankMapFrom i (el :: rest) m =
        rankMapFrom (i + 1) rest (mapSet m el.id i) from rfl]
    rw [rankMapFrom_get rest (mapSet m el.id i) (i + 1) k hpair.2]
    rw [List.map_cons, List.findIdx?_cons]
    by_cases hk : el.id == k
    · rw [if_pos hk]
      have hkm : k ∉ rest.map fun e => e.id := by
        have h1 := hpair.1
        rwa [eq_of_beq hk] at h1
      have hnone : (rest.map fun e => e.id).findIdx? (· == k) = none := by
        rw [List.findIdx?_eq_none_iff]
        intro x hx
        rw [beq_eq_false_iff_ne]
        intro hcon
        exact hkm (hcon ▸ hx)
      rw [hnone]
      show mapGet (mapSet m el.id i) k = some (i + 0)
      rw [eq_of_beq hk, mapGet_mapSet_self]
      simp
    · rw [if_neg (by simpa using hk)]
      rw [findIdxQ_add_one]
      rcases hfi : (rest.map fun e => e.id).findIdx? (· == k) with _ | j
      · rw [hfi]
        show mapGet (mapSet m el.id i) k = mapGet m k
        exact mapGet_mapSet_ne m el.id k i
          (by intro h; exact hk (by rw [h]; exact beq_self_eq_true el.id))
      · rw [hfi]
        show some (i + 1 + j) = some (i + (j + 1))
        congr 1
        omega

/-- **C6** (amended): the rank population `dgElementsForRank` is the
interactive elements carrying `in_dominant_group === true` when at least
one element does; only when none does (and `dominant_group_key` is truthy)
does the population fall back to the exact `group_key` matches. It is
sorted by `(doc_y, bbox.y, bbox.x, -importance)` over the whole population,
never over the selected subset. For every selected element, the `ord`
column shows the element's rank in that population exactly when its
per-element dominant-group test (`in_dominant_group` when defined, else the
`group_key` fallback) holds and its id occurs in the population; every
other selected element — in particular a fallback-admitted `DG = 1` element
of a snapshot that also has flagged elements, which the flag-preferring
population excludes — carries `ord = "-"`. -/
theorem compact_ord_rank (cfg : TopElementSelector) (snap : Snapshot) (el : Element)
    (hmem : el ∈ selectedElements cfg snap)
    (hnd : (((dgRankSorted snap).map fun e => e.id)).Nodup) :
    ((interSorted snap).any (fun e => e.in_dominant_group == some true) = true →
      dgRankSorted snap =
        jsSortStable rankLe
          ((interSorted snap).filter fun e => e.in_dominant_group == some true)) ∧
    ((interSorted snap).any (fun e => e.in_dominant_group == some true) = false →
      strTruthy snap.dominant_group_key = true →
      dgRankSorted snap =
        jsSortStable rankLe
          ((interSorted snap).filter fun e => e.group_key == snap.dominant_group_key)) ∧
    (inDgFlag snap el = false → ordField snap el = "-") ∧
    (inDgFlag snap el = true →
      (∀ r, (((dgRankSorted snap).map fun e => e.id)).findIdx? (· == el.id) = some r →
        ordField snap el = toString r) ∧
      ((((dgRankSorted snap).map fun e => e.id)).findIdx? (· == el.id) = none →
        ordField snap el = "-")) := by
  have _ := hmem
  have hget := rankMapFrom_get (dgRankSorted snap) [] 0 el.id hnd
  rw [show rankMapFrom 0 (dgRankSorted snap) [] = rankInGroupMap snap from rfl] at hget
  refine ⟨?_, ?_, ?_, ?_⟩
  · intro hany
    obtain ⟨x, hx, hpx⟩ := List.any_eq_true.mp hany
    have hne : ((interSorted snap).filter
        fun e => e.in_dominant_group == some true) ≠ [] := by
      intro hnil
      have := List.filter_eq_nil_iff.mp hnil x hx
      exact this hpx
    simp [dgRankSorted, dgForRank, List.isEmpty_iff, hne]
  · intro hnone htr
    have hnil : ((interSorted snap).filter
        fun e => e.in_dominant_group == some true) = [] := by
      rw [List.filter_eq_nil_iff]
      intro x hx
      have := List.any_eq_false.mp hnone x hx
      simpa using this
    simp [dgRankSorted, dgForRank, hnil, htr]
  · intro hf
    unfold ordField
    rw [hf]
    simp
  · intro ht
    constructor
    · intro r hr
      unfold ordField
      rw [ht, hget, hr]
      simp
    · intro hr
      unfold ordField
      rw [ht, hget, hr]
      simp [mapGet]

/-- C6 witness: the amended statement evaluated at a consistent flagged
dominant group, where the first item by `doc_y` gets rank 0. -/
theorem compact_ord_rank_witness :
    (((interSorted snapRanked).any (fun e => e.in_dominant_group == some true) = true →
      dgRankSorted snapRanked =
        jsSortStable rankLe
          ((interSorted snapRanked).filter fun e => e.in_dominant_group == some true)) ∧
    ((interSorted snapRanked).any (fun e => e.in_dominant_group == some true) = false →
      strTruthy snapRanked.dominant_group_key = true →
      dgRankSorted snapRanked =
        jsSortStable rankLe
          ((interSorted snapRanked).filter
            fun e => e.group_key == snapRanked.dominant_group_key)) ∧
    (inDgFlag snapRanked eRank2 = false → ordField snapRanked eRank2 = "-") ∧
    (inDgFlag snapRanked eRank2 = true →
      (∀ r, (((dgRankSorted snapRanked).map fun e => e.id)).findIdx? (· == eRank2.id) =
          some r → ordField snapRanked eRank2 = toString r) ∧
      ((((dgRankSorted snapRanked).map fun e => e.id)).findIdx? (· == eRank2.id) = none →
        ordField snapRanked eRank2 = "-"))) :=
  compact_ord_rank {} snapRanked eRank2 (by decide) (by decide)

/-- C6 counterexample: in a snapshot whose dominant group mixes flagged and
`group_key`-fallback members, the fallback element is selected, rendered
with `DG = 1`, and holds rank 1 in the full interactive dominant-group
population of the claim, yet its `ord` column is `-`. -/
theorem compact_ord_counterexample :
    e2Mixed ∈ selectedElements {} snapMixed ∧
    dgFlagField snapMixed e2Mixed = "1" ∧
    (((claimDgPopulation snapMixed).map fun e => e.id)).findIdx? (· == e2Mixed.id) =
      some 1 ∧
    ordField snapMixed e2Mixed = "-" ∧
    ("-" : String) ≠ "1" := by
  refine ⟨by decide, by decide, by decide, by decide, by decide⟩
